import Mathlib

/-!
# terraform-provider-nsx: security groups, security policies and services

A shallow embedding of `resource_security_group.go`, `resource_security_policy.go`
and `resource_service.go`, followed by theorems about the embedded functions.

Conventions of the embedding.

* The remote control plane is reached only through `nsxclient.Do(api)`.  The client is a
  function from a request and the current remote world to a response and the next world;
  every call is also appended to a chronological trace, so "no remote call" is a statement
  about that trace.
* `d *schema.ResourceData` becomes a record per resource kind.  `d.GetOk(k)` is "the value is
  not the zero value", `d.GetChange(k)` is the pair (old field, new field).  `d.HasChange(k)`
  is "old differs from new" for the string fields; for the `dynamic_membership` list it is
  hasChangeDynamicMembership, which follows the comparison the SDK really makes.
* `d.Set("dynamic_membership", _)` in Read is setDynamicMembership: the SDK rejects the value
  and the error is dropped, so the resource data stays as it was.
* A Go function returning `(*T, error)` with either `(nil, err)` or `(ptr, nil)` becomes
  `Except GoError T`; dereferencing the nil pointer of the first case is a run-time panic,
  as is an out-of-range slice index.
* Log statements are dropped.
-/

set_option autoImplicit false

namespace NSX

/-! ## Errors and results -/

/-- A Go error value: either an error known by its message (`errors.New(msg)`, or the error
returned by the client), or the unevaluated `fmt.Errorf(format, args...)` with each argument
kept as the text `%v` prints for it (a string as it is, an integer in decimal, an error by
its message). -/
inductive GoError where
  | message (msg : String) : GoError
  | errorf (format : String) (args : List String) : GoError
deriving DecidableEq, Repr

/-- Model of `errors.New(msg)`. -/
def errorsNew (msg : String) : GoError := .message msg

/-- Model of `fmt.Errorf(format, args...)`. -/
def fmtErrorf (format : String) (args : List String) : GoError := .errorf format args

/-- How a provider operation ends: `return nil`, `return err`, or a run-time panic. -/
inductive Result where
  | ok : Result
  | error (e : GoError) : Result
  | panic (msg : String) : Result
deriving DecidableEq, Repr

/-- Text of the panic raised by a field access through a nil pointer. -/
def nilDereference : String := "invalid memory address or nil pointer dereference"

/-- Text of the panic raised by a slice index past the length. -/
def indexOutOfRange : String := "index out of range"

/-! ## Remote object model (package gonsx, types used by the three files) -/

/-- The type securitygroup.DynamicCriteria: the four string fields the code reads and writes. -/
structure DynamicCriteria where
  Operator : String
  Key : String
  Criteria : String
  Value : String
deriving DecidableEq, Repr

/-- The type securitygroup.DynamicSet. -/
structure DynamicSet where
  Operator : String
  DynamicCriteria : List DynamicCriteria
deriving DecidableEq, Repr

/-- The type securitygroup.DynamicMemberDefinition. -/
structure DynamicMemberDefinition where
  DynamicSet : List DynamicSet
deriving DecidableEq, Repr

/-- The type securitygroup.SecurityGroup; `DynamicMemberDefinition` is a pointer and may be nil.
The default value is the Go zero value `securitygroup.SecurityGroup{}`. -/
structure SecurityGroup where
  ObjectID : String := ""
  Name : String := ""
  DynamicMemberDefinition : Option DynamicMemberDefinition := none
deriving DecidableEq, Repr

/-- The type securitypolicy.SecurityPolicy, with the fields the code touches. -/
structure SecurityPolicy where
  ObjectID : String := ""
  Name : String := ""
deriving DecidableEq, Repr

/-- The type securitypolicy.Action; the provider only ever passes an empty slice of them. -/
structure Action where
  Class : String
deriving DecidableEq, Repr

/-- The type service.Element. -/
structure Element where
  ApplicationProtocol : String
  Value : String
deriving DecidableEq, Repr

/-- The type service.ApplicationService, with the fields the code touches. -/
structure ApplicationService where
  ObjectID : String := ""
  Name : String := ""
  Description : String := ""
  Element : List Element := []
deriving DecidableEq, Repr

/-! ## The request/response executor -/

/-- The API objects the provider hands to `nsxclient.Do`. -/
inductive Request where
  | securityGroupGetAll (scopeID : String)
  | securityGroupCreate (scopeID name : String) (definition : Option DynamicMemberDefinition)
  | securityGroupUpdate (id : String) (obj : SecurityGroup)
  | securityGroupDelete (id : String)
  | securityPolicyGetAll
  | securityPolicyCreate (name precedence description : String) (securitygroups : List String)
      (actions : List Action)
  | securityPolicyDelete (id : String) (force : Bool)
  | serviceGetAll (scopeID : String)
  | serviceCreate (scopeID name description protocol ports : String)
  | serviceUpdate (id : String) (obj : ApplicationService)
  | serviceDelete (id : String)
deriving DecidableEq, Repr

/-- What is observable on an API object after `nsxclient.Do(api)`: the message of the returned
error (`none` for nil),
`StatusCode()`, `ResponseObject()` printed with `%s`, and `GetResponse()` (a listing for the
GetAll requests, the new id for the create requests). -/
structure Response where
  err : Option String := none
  StatusCode : Int := 0
  ResponseObject : String := ""
  SecurityGroups : List SecurityGroup := []
  SecurityPolicies : List SecurityPolicy := []
  Applications : List ApplicationService := []
  CreatedID : String := ""
deriving DecidableEq, Repr

/-- The client `*gonsx.NSXClient` over a remote world of type `W`. -/
abbrev NSXClient (W : Type) := Request → W → Response × W

/-- The remote side during an operation: its world and the calls issued so far, oldest first. -/
structure Remote (W : Type) where
  world : W
  calls : List Request

/-- Model of `nsxclient.Do(api)`: run the request and record it in the trace. -/
def doCall {W : Type} (client : NSXClient W) (req : Request) (rem : Remote W) :
    Response × Remote W :=
  ((client req rem.world).1, ⟨(client req rem.world).2, rem.calls ++ [req]⟩)

/-- Outcome of a provider operation on resource data of type `D`. -/
structure Run (W D : Type) where
  result : Result
  d : D
  rem : Remote W

/-! ## Library helpers the code calls -/

/-- Modelled from the spec: `FilterByName` of gonsx's security group list (the library is not
part of the sources): a linear scan for exact name equality returning the first hit, and the
empty record when no object matches.  The callers agree: they read `.ObjectID` of the result
and take the empty string to mean that the object is gone. -/
def SecurityGroupList.FilterByName (name : String) : List SecurityGroup → SecurityGroup
  | [] => {}
  | g :: rest => if g.Name = name then g else SecurityGroupList.FilterByName name rest

/-- Modelled from the spec: `FilterByName` of gonsx's security policy list, first hit by exact
name or the empty record. -/
def SecurityPolicyList.FilterByName (name : String) : List SecurityPolicy → SecurityPolicy
  | [] => {}
  | p :: rest => if p.Name = name then p else SecurityPolicyList.FilterByName name rest

/-- Modelled from the spec: `FilterByName` of gonsx's application service list, first hit by
exact name or the empty record. -/
def ApplicationsList.FilterByName (name : String) : List ApplicationService → ApplicationService
  | [] => {}
  | s :: rest => if s.Name = name then s else ApplicationsList.FilterByName name rest

/-- Lookup in a Go `map[string]bool` literal: a missing key reads as `false`. -/
def mapLookup (m : List (String × Bool)) (key : String) : Bool :=
  match m.find? (fun kv => kv.1 = key) with
  | some kv => kv.2
  | none => false

/-! ## resource_security_group.go: validators -/

/-- Validator of `set_operator`: returns `(ws, errors)`. -/
def validateSecurityGroupSetOperator (v k : String) : List String × List GoError :=
  if v ≠ "OR" ∧ v ≠ "AND" then
    ([], [] ++ [fmtErrorf "%q must be one of \"OR\" or \"AND\" " [k]])
  else ([], [])

/-- Validator of `rules_operator`: returns `(ws, errors)`. -/
def validateSecurityGroupRulesOperator (v k : String) : List String × List GoError :=
  if v ≠ "OR" ∧ v ≠ "AND" then
    ([], [] ++ [fmtErrorf "%q must be one of \"OR\" or \"AND\" " [k]])
  else ([], [])

/-- The map literal `keyTypes`. -/
def keyTypes : List (String × Bool) :=
  [("VM.SECURITY_TAG", true), ("VM.GUEST_OS_FULL_NAME", true), ("VM.GUEST_HOST_NAME", true),
   ("VM.NAME", true), ("ENTITY", true)]

/-- Validator of a rule `key`: returns `(ws, errors)`. -/
def validateSecurityGroupRuleKey (v k : String) : List String × List GoError :=
  if ¬ (mapLookup keyTypes v = true) then
    ([], [] ++ [fmtErrorf "%q must be a valid key, check documentation for acceptable values" [k]])
  else ([], [])

/-- The map literal `possibleCriteriaValues`. -/
def possibleCriteriaValues : List (String × Bool) :=
  [("belongs_to", true), ("starts_with", true), ("ends_with", true), ("=", true), ("!=", true),
   ("contains", true), ("similar_to", true)]

/-- Validator of a rule `criteria`: returns `(ws, errors)`. -/
def validateSecurityGroupRuleCriteria (v k : String) : List String × List GoError :=
  if ¬ (mapLookup possibleCriteriaValues v = true) then
    ([], [] ++ [fmtErrorf
      "%q must be a valid criteria value, check documentation for acceptable values" [k]])
  else ([], [])

/-! ## resource_security_group.go: desired state -/

/-- One element of the `rules` set of a `dynamic_membership` block. -/
structure RuleConfig where
  key : String
  value : String
  criteria : String
deriving DecidableEq, Repr

/-- One `dynamic_membership` block; `rules` is the set in the order `(*schema.Set).List()`
returns its elements. -/
structure DynamicMembershipConfig where
  set_operator : String
  rules_operator : String
  rules : List RuleConfig
deriving DecidableEq, Repr

/-- The resource data of a security group.  `nameOld` and `dynamic_membershipOld` are the
first components of `d.GetChange`. -/
structure SecurityGroupData where
  id : String := ""
  scopeid : String := "globalroot-0"
  name : String := ""
  nameOld : String := ""
  existing : Bool := false
  no_delete : Bool := false
  dynamic_membership : List DynamicMembershipConfig := []
  dynamic_membershipOld : List DynamicMembershipConfig := []
deriving DecidableEq, Repr

/-- Model of `d.HasChange("dynamic_membership")`.  The SDK compares the two values of
`d.GetChange` with `reflect.DeepEqual`.  Each block holds its rules as a `*schema.Set`, built
afresh for the old and for the new value, and a set carries its hash function, which
`DeepEqual` never finds equal to another one.  So two values with a block each never compare
equal, also when the blocks say the same, and the test reports no change only when neither
the old nor the new value has a block. -/
def hasChangeDynamicMembership (d : SecurityGroupData) : Bool :=
  decide (d.dynamic_membershipOld ≠ [] ∨ d.dynamic_membership ≠ [])

/-- Model of `d.Set("dynamic_membership", dynamicMembership)` in resourceSecurityGroupRead,
whose returned error is dropped: the schema declares a list, the value is a
`*securitygroup.DynamicMemberDefinition`, and the SDK's field writer fails to decode it
before it touches the data.  The resource data is what it was. -/
def setDynamicMembership (d : SecurityGroupData) (_dynamicMembership : DynamicMemberDefinition) :
    SecurityGroupData := d

/-! ## resource_security_group.go: functions -/

/-- Model of getSingleSecurityGroup: one listing call, then `FilterByName`. -/
def getSingleSecurityGroup {W : Type} (client : NSXClient W) (scopeID name : String)
    (rem : Remote W) : Except GoError SecurityGroup × Remote W :=
  let getAllAPI := doCall client (.securityGroupGetAll scopeID) rem
  match getAllAPI.1.err with
  | some err => (.error (.message err), getAllAPI.2)
  | none =>
    if getAllAPI.1.StatusCode ≠ 200 then
      (.error (fmtErrorf "Status code: %d, Response: %s"
        [toString getAllAPI.1.StatusCode, getAllAPI.1.ResponseObject]), getAllAPI.2)
    else
      (.ok (SecurityGroupList.FilterByName name getAllAPI.1.SecurityGroups), getAllAPI.2)

/-- The scan `for _, secGroup := range ...SecurityGroups` of findSecurityGroup, with the
fall-through `return securitygroup.SecurityGroup{}`. -/
def findSecurityGroupScan (name : String) : List SecurityGroup → SecurityGroup
  | [] => {}
  | secGroup :: rest =>
    if secGroup.Name = name then secGroup else findSecurityGroupScan name rest

/-- Model of findSecurityGroup: one listing call (status code not looked at), then the scan. -/
def findSecurityGroup {W : Type} (client : NSXClient W) (name scopeid : String)
    (rem : Remote W) : Except GoError SecurityGroup × Remote W :=
  let getAllAPI := doCall client (.securityGroupGetAll scopeid) rem
  match getAllAPI.1.err with
  | some err => (.error (.message err), getAllAPI.2)
  | none => (.ok (findSecurityGroupScan name getAllAPI.1.SecurityGroups), getAllAPI.2)

/-- Model of buildDynamicRules: one criterion per rule, all carrying `rulesOperator`; the
returned error is always nil. -/
def buildDynamicRules (m : List RuleConfig) (rulesOperator : String) :
    Except GoError (List DynamicCriteria) :=
  .ok (m.map fun dynamicCriterion =>
    { Operator := rulesOperator, Key := dynamicCriterion.key,
      Value := dynamicCriterion.value, Criteria := dynamicCriterion.criteria })

/-- Loop of buildDynamicMemberDefinition over the blocks, returning at the first error. -/
def buildDynamicSetList : List DynamicMembershipConfig → Except GoError (List DynamicSet)
  | [] => .ok []
  | data :: rest =>
    match buildDynamicRules data.rules data.rules_operator with
    | .error err => .error err
    | .ok dynamicRulesList =>
      match buildDynamicSetList rest with
      | .error err => .error err
      | .ok sets => .ok ({ Operator := data.set_operator, DynamicCriteria := dynamicRulesList } :: sets)

/-- Model of buildDynamicMemberDefinition. -/
def buildDynamicMemberDefinition (m : List DynamicMembershipConfig) :
    Except GoError DynamicMemberDefinition :=
  match buildDynamicSetList m with
  | .error err => .error err
  | .ok dynamicSetList => .ok ⟨dynamicSetList⟩

/-- Inner loop of readDynamicCriteria: the loop variable `localRule` after the scan of the
remote list, which stops at the first remote rule with the same `Value`. -/
def scanRemoteCriteria (localRule : DynamicCriteria) : List DynamicCriteria → DynamicCriteria
  | [] => localRule
  | remoteRule :: rest =>
    if localRule.Value = remoteRule.Value then
      { localRule with Criteria := remoteRule.Criteria, Key := remoteRule.Key }
    else scanRemoteCriteria localRule rest

/-- Outer loop of readDynamicCriteria over the elements still to visit, carrying the contents
of the slice.  `for _, localRule := range localCriteriaList` binds `localRule` to a copy of the
element; the body assigns to the fields of that copy and nothing is stored back into the
slice, so the copy is dropped at the end of each iteration. -/
def readDynamicCriteriaLoop (slice remoteCriteriaList : List DynamicCriteria) :
    List DynamicCriteria → List DynamicCriteria
  | [] => slice
  | localRule :: rest =>
    let _localRule := scanRemoteCriteria localRule remoteCriteriaList
    readDynamicCriteriaLoop slice remoteCriteriaList rest

/-- Model of readDynamicCriteria: the contents of `localCriteriaList` after the call. -/
def readDynamicCriteria (localCriteriaList remoteCriteriaList : List DynamicCriteria) :
    List DynamicCriteria :=
  readDynamicCriteriaLoop localCriteriaList remoteCriteriaList localCriteriaList

/-- The criteria merge in the words of the specification: every desired criterion takes the key
and comparator of the first remote criterion with the same value, and is left as it is when
there is none. -/
def mergeCriteriaSpec (desired remote : List DynamicCriteria) : List DynamicCriteria :=
  desired.map fun c => scanRemoteCriteria c remote

/-- The merge loop of resourceSecurityGroupRead, from position `idx` on:
`for idx, remoteDynamicSet := range remote` overwrites the operator of the desired set at `idx`
and calls readDynamicCriteria on its criteria.  `none` is the index-out-of-range panic at the
first remote position the desired slice does not have. -/
def mergeDynamicSets (idx : Nat) : List DynamicSet → List DynamicSet → Option (List DynamicSet)
  | [], sets => some sets
  | remoteDynamicSet :: rest, sets =>
    match sets[idx]? with
    | none => none
    | some s =>
      let s1 : DynamicSet := { s with Operator := remoteDynamicSet.Operator }
      let s2 : DynamicSet :=
        { s1 with DynamicCriteria :=
            readDynamicCriteria s1.DynamicCriteria remoteDynamicSet.DynamicCriteria }
      mergeDynamicSets (idx + 1) rest (sets.set idx s2)

/-- Model of resourceSecurityGroupRead. -/
def resourceSecurityGroupRead {W : Type} (client : NSXClient W) (d : SecurityGroupData)
    (rem : Remote W) : Run W SecurityGroupData :=
  if d.scopeid = "" then ⟨.error (errorsNew "scopeid argument is required"), d, rem⟩
  else if d.name = "" then ⟨.error (errorsNew "name argument is required"), d, rem⟩
  else
    match (if d.dynamic_membership ≠ [] then buildDynamicMemberDefinition d.dynamic_membership
           else .ok ⟨[]⟩) with
    | .error err => ⟨.error err, d, rem⟩
    | .ok dynamicMembership =>
      let r := getSingleSecurityGroup client d.scopeid d.name rem
      match r.1 with
      | .error err => ⟨.error err, d, r.2⟩
      | .ok securityGroupObject =>
        let id := securityGroupObject.ObjectID
        if id = "" then ⟨.ok, { d with id := "" }, r.2⟩
        else
          match securityGroupObject.DynamicMemberDefinition with
          | none => ⟨.ok, d, r.2⟩
          | some remoteDefinition =>
            match mergeDynamicSets 0 remoteDefinition.DynamicSet dynamicMembership.DynamicSet with
            | none => ⟨.panic indexOutOfRange, d, r.2⟩
            | some sets => ⟨.ok, setDynamicMembership d ⟨sets⟩, r.2⟩

/-- Lines `if hasChanges ... return resourceSecurityGroupRead(d, m)` of
resourceSecurityGroupUpdate: the update call, whose error is only logged, then Read. -/
def securityGroupUpdateFinish {W : Type} (client : NSXClient W) (d : SecurityGroupData)
    (hasChanges : Bool) (id : String) (securityGroupObject : SecurityGroup) (rem : Remote W) :
    Run W SecurityGroupData :=
  if hasChanges then
    resourceSecurityGroupRead client d
      (doCall client (.securityGroupUpdate id securityGroupObject) rem).2
  else resourceSecurityGroupRead client d rem

/-- Model of resourceSecurityGroupUpdate.  The error of getSingleSecurityGroup is ignored and
its pointer result is dereferenced at once. -/
def resourceSecurityGroupUpdate {W : Type} (client : NSXClient W) (d : SecurityGroupData)
    (rem : Remote W) : Run W SecurityGroupData :=
  if d.scopeid = "" then ⟨.error (errorsNew "scopeid argument is required"), d, rem⟩
  else
    let r := getSingleSecurityGroup client d.scopeid d.nameOld rem
    match r.1 with
    | .error _ => ⟨.panic nilDereference, d, r.2⟩
    | .ok securityGroupObject =>
      let id := securityGroupObject.ObjectID
      let hasChanges1 : Bool := if d.nameOld ≠ d.name then true else false
      let obj1 : SecurityGroup :=
        if d.nameOld ≠ d.name then { securityGroupObject with Name := d.name }
        else securityGroupObject
      if hasChangeDynamicMembership d then
        match (if d.dynamic_membership ≠ [] then
                 (match buildDynamicMemberDefinition d.dynamic_membership with
                  | .error err => Except.error err
                  | .ok definition => Except.ok (some definition))
               else Except.ok none) with
        | .error err => ⟨.error err, d, r.2⟩
        | .ok dynamicMembership =>
          securityGroupUpdateFinish client d true id
            { obj1 with DynamicMemberDefinition := dynamicMembership } r.2
      else securityGroupUpdateFinish client d hasChanges1 id obj1 r.2

/-- Model of resourceSecurityGroupCreate. -/
def resourceSecurityGroupCreate {W : Type} (client : NSXClient W) (d : SecurityGroupData)
    (rem : Remote W) : Run W SecurityGroupData :=
  if d.scopeid = "" then ⟨.error (errorsNew "scopeid argument is required"), d, rem⟩
  else if d.name = "" then ⟨.error (errorsNew "name argument is required"), d, rem⟩
  else
    match (if d.dynamic_membership ≠ [] then
             (match buildDynamicMemberDefinition d.dynamic_membership with
              | .error err => Except.error err
              | .ok definition => Except.ok (some definition))
           else Except.ok none) with
    | .error err => ⟨.error err, d, rem⟩
    | .ok dynamicMemberDefinition =>
      let r := findSecurityGroup client d.name d.scopeid rem
      match r.1 with
      | .error err => ⟨.error err, d, r.2⟩
      | .ok secGroupExists =>
        if secGroupExists.ObjectID ≠ "" then
          let d1 : SecurityGroupData := { d with id := secGroupExists.ObjectID, existing := true }
          if d1.dynamic_membership ≠ [] then resourceSecurityGroupUpdate client d1 r.2
          else ⟨.ok, d1, r.2⟩
        else
          let createAPI :=
            doCall client (.securityGroupCreate d.scopeid d.name dynamicMemberDefinition) r.2
          match createAPI.1.err with
          | some err =>
            ⟨.error (fmtErrorf "Error creating security group: %v" [err]), d, createAPI.2⟩
          | none =>
            if createAPI.1.StatusCode ≠ 201 then
              ⟨.error (fmtErrorf "%s" [createAPI.1.ResponseObject]), d, createAPI.2⟩
            else
              resourceSecurityGroupRead client { d with id := createAPI.1.CreatedID } createAPI.2

/-- Model of resourceSecurityGroupDelete. -/
def resourceSecurityGroupDelete {W : Type} (client : NSXClient W) (d : SecurityGroupData)
    (rem : Remote W) : Run W SecurityGroupData :=
  if d.existing ∨ d.no_delete then ⟨.ok, d, rem⟩
  else if d.scopeid = "" then ⟨.error (errorsNew "scopeid argument is required"), d, rem⟩
  else if d.name = "" then ⟨.error (errorsNew "name argument is required"), d, rem⟩
  else
    let api := doCall client (.securityGroupGetAll d.scopeid) rem
    match api.1.err with
    | some err => ⟨.error (.message err), d, api.2⟩
    | none =>
      let r := getSingleSecurityGroup client d.scopeid d.name api.2
      match r.1 with
      | .error _ => ⟨.panic nilDereference, d, r.2⟩
      | .ok securityGroupObject =>
        let id := securityGroupObject.ObjectID
        if id = "" then ⟨.ok, { d with id := "" }, r.2⟩
        else
          let deleteAPI := doCall client (.securityGroupDelete id) r.2
          match deleteAPI.1.err with
          | some err => ⟨.error (.message err), d, deleteAPI.2⟩
          | none => ⟨.ok, { d with id := "" }, deleteAPI.2⟩

/-! ## resource_security_policy.go -/

/-- The resource data of a security policy.  An element of `securitygroups` that is not a
string (a null list element) is `none`. -/
structure SecurityPolicyData where
  id : String := ""
  name : String := ""
  precedence : String := ""
  description : String := ""
  securitygroups : List (Option String) := []
deriving DecidableEq, Repr

/-- Model of getSingleSecurityPolicy: one listing call, then `FilterByName`. -/
def getSingleSecurityPolicy {W : Type} (client : NSXClient W) (name : String)
    (rem : Remote W) : Except GoError SecurityPolicy × Remote W :=
  let getAllAPI := doCall client .securityPolicyGetAll rem
  match getAllAPI.1.err with
  | some err => (.error (.message err), getAllAPI.2)
  | none =>
    if getAllAPI.1.StatusCode ≠ 200 then
      (.error (fmtErrorf "Status code: %d, Response: %s"
        [toString getAllAPI.1.StatusCode, getAllAPI.1.ResponseObject]), getAllAPI.2)
    else
      (.ok (SecurityPolicyList.FilterByName name getAllAPI.1.SecurityPolicies), getAllAPI.2)

/-- Model of resourceSecurityPolicyRead. -/
def resourceSecurityPolicyRead {W : Type} (client : NSXClient W) (d : SecurityPolicyData)
    (rem : Remote W) : Run W SecurityPolicyData :=
  if d.name = "" then ⟨.error (fmtErrorf "name argument is required" []), d, rem⟩
  else
    let r := getSingleSecurityPolicy client d.name rem
    match r.1 with
    | .error err => ⟨.error err, d, r.2⟩
    | .ok securityPolicyObject =>
      let id := securityPolicyObject.ObjectID
      if id = "" then ⟨.ok, { d with id := "" }, r.2⟩
      else ⟨.ok, d, r.2⟩

/-- The loop of resourceSecurityPolicyCreate copying the group ids, failing on an element that
is not a string. -/
def collectSecurityGroups : List (Option String) → Except GoError (List String)
  | [] => .ok []
  | none :: _ => .error (fmtErrorf "empty element found in securitygroups" [])
  | some groupID :: rest =>
    match collectSecurityGroups rest with
    | .error err => .error err
    | .ok ids => .ok (groupID :: ids)

/-- Model of resourceSecurityPolicyCreate. -/
def resourceSecurityPolicyCreate {W : Type} (client : NSXClient W) (d : SecurityPolicyData)
    (rem : Remote W) : Run W SecurityPolicyData :=
  if d.name = "" then ⟨.error (fmtErrorf "name argument is required" []), d, rem⟩
  else if d.precedence = "" then ⟨.error (fmtErrorf "precedence argument is required" []), d, rem⟩
  else if d.description = "" then
    ⟨.error (fmtErrorf "description argument is required" []), d, rem⟩
  else if d.securitygroups = [] then
    ⟨.error (fmtErrorf "security groups argument is required" []), d, rem⟩
  else
    match collectSecurityGroups d.securitygroups with
    | .error err => ⟨.error err, d, rem⟩
    | .ok securitygroups =>
      let createAPI := doCall client
        (.securityPolicyCreate d.name d.precedence d.description securitygroups []) rem
      match createAPI.1.err with
      | some err =>
        ⟨.error (fmtErrorf "Error creating security policy: %v" [err]), d, createAPI.2⟩
      | none =>
        if createAPI.1.StatusCode ≠ 201 then
          ⟨.error (fmtErrorf "%s" [createAPI.1.ResponseObject]), d, createAPI.2⟩
        else
          resourceSecurityPolicyRead client { d with id := createAPI.1.CreatedID } createAPI.2

/-- Model of resourceSecurityPolicyDelete. -/
def resourceSecurityPolicyDelete {W : Type} (client : NSXClient W) (d : SecurityPolicyData)
    (rem : Remote W) : Run W SecurityPolicyData :=
  if d.name = "" then ⟨.error (fmtErrorf "name argument is required" []), d, rem⟩
  else
    let r := getSingleSecurityPolicy client d.name rem
    match r.1 with
    | .error err => ⟨.error err, d, r.2⟩
    | .ok securityPolicyObject =>
      let id := securityPolicyObject.ObjectID
      if id = "" then ⟨.ok, { d with id := "" }, r.2⟩
      else
        let deleteAPI := doCall client (.securityPolicyDelete id false) r.2
        match deleteAPI.1.err with
        | some err => ⟨.error (.message err), d, deleteAPI.2⟩
        | none => ⟨.ok, { d with id := "" }, deleteAPI.2⟩

/-! ## resource_service.go -/

/-- The resource data of a service; the `Old` fields are the first components of
`d.GetChange`. -/
structure ServiceData where
  id : String := ""
  scopeid : String := ""
  name : String := ""
  nameOld : String := ""
  description : String := ""
  descriptionOld : String := ""
  protocol : String := ""
  protocolOld : String := ""
  ports : String := ""
  portsOld : String := ""
deriving DecidableEq, Repr

/-- Model of getSingleService: one listing call, then `FilterByName`, then the guard that turns
an empty `ObjectID` into `(nil, "Not found <name>")`. -/
def getSingleService {W : Type} (client : NSXClient W) (scopeid name : String)
    (rem : Remote W) : Except GoError ApplicationService × Remote W :=
  let getAllAPI := doCall client (.serviceGetAll scopeid) rem
  match getAllAPI.1.err with
  | some err => (.error (.message err), getAllAPI.2)
  | none =>
    if getAllAPI.1.StatusCode ≠ 200 then
      (.error (fmtErrorf "Status code: %d, Response: %s"
        [toString getAllAPI.1.StatusCode, getAllAPI.1.ResponseObject]), getAllAPI.2)
    else
      let service := ApplicationsList.FilterByName name getAllAPI.1.Applications
      if service.ObjectID = "" then (.error (fmtErrorf "Not found %s" [name]), getAllAPI.2)
      else (.ok service, getAllAPI.2)

/-- Model of resourceServiceRead: a first listing whose error is returned, then
getSingleService, whose error is ignored and whose pointer result is dereferenced. -/
def resourceServiceRead {W : Type} (client : NSXClient W) (d : ServiceData)
    (rem : Remote W) : Run W ServiceData :=
  if d.scopeid = "" then ⟨.error (fmtErrorf "scopeid argument is required" []), d, rem⟩
  else if d.name = "" then ⟨.error (fmtErrorf "name argument is required" []), d, rem⟩
  else
    let api := doCall client (.serviceGetAll d.scopeid) rem
    match api.1.err with
    | some err => ⟨.error (.message err), d, api.2⟩
    | none =>
      let r := getSingleService client d.scopeid d.name api.2
      match r.1 with
      | .error _ => ⟨.panic nilDereference, d, r.2⟩
      | .ok serviceObject =>
        let id := serviceObject.ObjectID
        if id = "" then ⟨.ok, { d with id := "" }, r.2⟩
        else ⟨.ok, d, r.2⟩

/-- Model of resourceServiceCreate. -/
def resourceServiceCreate {W : Type} (client : NSXClient W) (d : ServiceData)
    (rem : Remote W) : Run W ServiceData :=
  if d.name = "" then ⟨.error (fmtErrorf "name argument is required" []), d, rem⟩
  else if d.scopeid = "" then ⟨.error (fmtErrorf "scopeid argument is required" []), d, rem⟩
  else if d.description = "" then
    ⟨.error (fmtErrorf "description argument is required" []), d, rem⟩
  else if d.protocol = "" then ⟨.error (fmtErrorf "protocol argument is required" []), d, rem⟩
  else
    let createAPI := doCall client
      (.serviceCreate d.scopeid d.name d.description d.protocol d.ports) rem
    match createAPI.1.err with
    | some err => ⟨.error (fmtErrorf "Error: %v" [err]), d, createAPI.2⟩
    | none =>
      if createAPI.1.StatusCode ≠ 201 then
        ⟨.error (fmtErrorf "%s" [createAPI.1.ResponseObject]), d, createAPI.2⟩
      else resourceServiceRead client { d with id := createAPI.1.CreatedID } createAPI.2

/-- Model of resourceServiceDelete. -/
def resourceServiceDelete {W : Type} (client : NSXClient W) (d : ServiceData)
    (rem : Remote W) : Run W ServiceData :=
  let deleteAPI := doCall client (.serviceDelete d.id) rem
  match deleteAPI.1.err with
  | some err => ⟨.error (.message err), d, deleteAPI.2⟩
  | none => ⟨.ok, d, deleteAPI.2⟩

/-- The three `d.HasChange` blocks of resourceServiceUpdate: the value of `hasChanges` and the
service object after them. -/
def serviceApplyChanges (d : ServiceData) (serviceObject : ApplicationService) :
    Bool × ApplicationService :=
  let c1 : Bool × ApplicationService :=
    if d.nameOld ≠ d.name then (true, { serviceObject with Name := d.name })
    else (false, serviceObject)
  let c2 : Bool × ApplicationService :=
    if d.descriptionOld ≠ d.description then (true, { c1.2 with Description := d.description })
    else c1
  if d.protocolOld ≠ d.protocol ∨ d.portsOld ≠ d.ports then
    (true, { c2.2 with Element := [{ ApplicationProtocol := d.protocol, Value := d.ports }] })
  else c2

/-- Model of resourceServiceUpdate. -/
def resourceServiceUpdate {W : Type} (client : NSXClient W) (d : ServiceData)
    (rem : Remote W) : Run W ServiceData :=
  if d.scopeid = "" then ⟨.error (fmtErrorf "scopeid argument is required" []), d, rem⟩
  else
    let api := doCall client (.serviceGetAll d.scopeid) rem
    match api.1.err with
    | some err => ⟨.error (.message err), d, api.2⟩
    | none =>
      let r := getSingleService client d.scopeid d.nameOld api.2
      match r.1 with
      | .error _ => ⟨.panic nilDereference, d, r.2⟩
      | .ok serviceObject =>
        let id := serviceObject.ObjectID
        if id = "" then ⟨.ok, { d with id := "" }, r.2⟩
        else
          let c := serviceApplyChanges d serviceObject
          if c.1 then
            let updateAPI := doCall client (.serviceUpdate id c.2) r.2
            match updateAPI.1.err with
            | some err => ⟨.error (.message err), d, updateAPI.2⟩
            | none => resourceServiceRead client d updateAPI.2
          else resourceServiceRead client d r.2

/-! ## Predicates on the call trace -/

/-- Whether a request is a remote update call. -/
def Request.isUpdate : Request → Bool
  | .securityGroupUpdate _ _ => true
  | .serviceUpdate _ _ => true
  | _ => false

/-- Whether a request is a remote create call. -/
def Request.isCreate : Request → Bool
  | .securityGroupCreate _ _ _ => true
  | .securityPolicyCreate _ _ _ _ _ => true
  | .serviceCreate _ _ _ _ _ => true
  | _ => false

/-- Whether a request is a listing, the only read-only verb. -/
def Request.isGetAll : Request → Bool
  | .securityGroupGetAll _ => true
  | .securityPolicyGetAll => true
  | .serviceGetAll _ => true
  | _ => false

/-! ## Concrete remote systems and states used as examples -/

/-- A remote system without state of its own: listings answer 200 with the given objects,
create calls answer 201 with id `created-1`, update and delete calls answer 200. -/
def staticClient (groups : List SecurityGroup) (policies : List SecurityPolicy)
    (services : List ApplicationService) : NSXClient Unit :=
  fun req w =>
    match req with
    | .securityGroupGetAll _ => ({ StatusCode := 200, SecurityGroups := groups }, w)
    | .securityPolicyGetAll => ({ StatusCode := 200, SecurityPolicies := policies }, w)
    | .serviceGetAll _ => ({ StatusCode := 200, Applications := services }, w)
    | .securityGroupCreate _ _ _ => ({ StatusCode := 201, CreatedID := "created-1" }, w)
    | .securityPolicyCreate _ _ _ _ _ => ({ StatusCode := 201, CreatedID := "created-1" }, w)
    | .serviceCreate _ _ _ _ _ => ({ StatusCode := 201, CreatedID := "created-1" }, w)
    | _ => ({ StatusCode := 200 }, w)

/-- The remote side before any call. -/
def freshRemote : Remote Unit := ⟨(), []⟩

/-- Desired criteria of the positional-merge example: key VM.NAME, value v1, comparator `=`. -/
def exampleDesiredCriteria : List DynamicCriteria :=
  [{ Operator := "AND", Key := "VM.NAME", Criteria := "=", Value := "v1" }]

/-- Remote criteria of the positional-merge example: key VM.SECURITY_TAG, value v1, comparator
`contains`. -/
def exampleRemoteCriteria : List DynamicCriteria :=
  [{ Operator := "AND", Key := "VM.SECURITY_TAG", Criteria := "contains", Value := "v1" }]

/-- A security group resource whose one membership block is the desired side of the example. -/
def exampleGroupData : SecurityGroupData :=
  { id := "securitygroup-7", name := "web", nameOld := "web",
    dynamic_membership :=
      [{ set_operator := "AND", rules_operator := "AND",
         rules := [{ key := "VM.NAME", value := "v1", criteria := "=" }] }],
    dynamic_membershipOld :=
      [{ set_operator := "AND", rules_operator := "AND",
         rules := [{ key := "VM.NAME", value := "v1", criteria := "=" }] }] }

/-- The remote group `web` holding the remote side of the example in a set with operator `OR`. -/
def exampleRemoteGroup : SecurityGroup :=
  { ObjectID := "securitygroup-7", Name := "web",
    DynamicMemberDefinition :=
      some ⟨[{ Operator := "OR", DynamicCriteria := exampleRemoteCriteria }]⟩ }

/-- The set built by one iteration of buildDynamicMemberDefinition from one block (a name for
the loop body, used to state what the loop returns). -/
def desiredDynamicSet (data : DynamicMembershipConfig) : DynamicSet :=
  { Operator := data.set_operator,
    DynamicCriteria := data.rules.map fun rule =>
      { Operator := data.rules_operator, Key := rule.key, Value := rule.value,
        Criteria := rule.criteria } }

/-- The trace `after` extends the trace `before` by listing calls only. -/
def OnlyListings (before after : List Request) : Prop :=
  ∃ new, after = before ++ new ∧ ∀ c ∈ new, c.isGetAll = true

/-- A service resource with no pending change. -/
def exampleServiceData : ServiceData :=
  { id := "application-3", scopeid := "globalroot-0", name := "http", nameOld := "http",
    description := "web traffic", descriptionOld := "web traffic",
    protocol := "TCP", protocolOld := "TCP", ports := "80", portsOld := "80" }

/-- The remote service `http`. -/
def exampleRemoteService : ApplicationService :=
  { ObjectID := "application-3", Name := "http", Description := "web traffic",
    Element := [{ ApplicationProtocol := "TCP", Value := "80" }] }

/-- Model of `fmt.Sprintf` on the characters of a format, for the verbs `%s`, `%v` and `%d`,
which print an argument by its plain text.  `none` stands for everything outside this fragment:
another verb (such as `%q`), a trailing `%`, a missing or an extra argument. -/
def goSprintf : List Char → List String → Option (List Char)
  | [], [] => some []
  | [], _ :: _ => none
  | c :: rest, args =>
    if c = '%' then
      match rest, args with
      | verb :: rest1, a :: more =>
        if verb = 's' ∨ verb = 'v' ∨ verb = 'd' then
          (goSprintf rest1 more).map fun tail => a.data ++ tail
        else none
      | _, _ => none
    else (goSprintf rest args).map fun tail => c :: tail

/-- Model of the method `Error()` of an error value: its message, when the format stays within
the verbs goSprintf knows. -/
def GoError.Error : GoError → Option String
  | .message msg => some msg
  | .errorf format args => (goSprintf format.data args).map String.mk

/-- The value of `dynamicMemberDefinition` in resourceSecurityGroupCreate once the
`dynamic_membership` block has been read: nil without a block, else the built definition. -/
def securityGroupCreateDefinition (d : SecurityGroupData) : Option DynamicMemberDefinition :=
  if d.dynamic_membership ≠ [] then some ⟨d.dynamic_membership.map desiredDynamicSet⟩ else none

/-- The value of `securityGroupObject` in resourceSecurityGroupUpdate after the two
`d.HasChange` blocks, when the resolver returned `securityGroupObject`. -/
def securityGroupUpdateObject (d : SecurityGroupData) (securityGroupObject : SecurityGroup) :
    SecurityGroup :=
  let obj1 : SecurityGroup :=
    if d.nameOld ≠ d.name then { securityGroupObject with Name := d.name }
    else securityGroupObject
  if hasChangeDynamicMembership d then
    { obj1 with DynamicMemberDefinition := securityGroupCreateDefinition d }
  else obj1

/-- A remote system that lists nothing and rejects every create call with status 400 and the
given response body. -/
def rejectingClient (body : String) : NSXClient Unit :=
  fun req w =>
    match req with
    | .securityGroupCreate _ _ _ => ({ StatusCode := 400, ResponseObject := body }, w)
    | .securityPolicyCreate _ _ _ _ _ => ({ StatusCode := 400, ResponseObject := body }, w)
    | .serviceCreate _ _ _ _ _ => ({ StatusCode := 400, ResponseObject := body }, w)
    | _ => ({ StatusCode := 200 }, w)

/-- A remote system whose listings answer 200 with the given objects and whose update calls
fail in transport with the given message. -/
def failingUpdateClient (groups : List SecurityGroup) (services : List ApplicationService)
    (msg : String) : NSXClient Unit :=
  fun req w =>
    match req with
    | .securityGroupGetAll _ => ({ StatusCode := 200, SecurityGroups := groups }, w)
    | .serviceGetAll _ => ({ StatusCode := 200, Applications := services }, w)
    | .securityGroupUpdate _ _ => ({ err := some msg }, w)
    | .serviceUpdate _ _ => ({ err := some msg }, w)
    | _ => ({ StatusCode := 200 }, w)

/-- A security policy to create. -/
def examplePolicyData : SecurityPolicyData :=
  { name := "p1", precedence := "5000", description := "web policy",
    securitygroups := [some "securitygroup-7"] }

/-- The create call of resourceSecurityGroupCreate, issued after the listing of
findSecurityGroup: its response and the remote side after it. -/
def securityGroupCreateCall {W : Type} (client : NSXClient W) (d : SecurityGroupData)
    (rem : Remote W) : Response × Remote W :=
  doCall client (.securityGroupCreate d.scopeid d.name (securityGroupCreateDefinition d))
    (doCall client (.securityGroupGetAll d.scopeid) rem).2

/-- The create call of resourceSecurityPolicyCreate for the collected group ids. -/
def securityPolicyCreateCall {W : Type} (client : NSXClient W) (d : SecurityPolicyData)
    (securitygroups : List String) (rem : Remote W) : Response × Remote W :=
  doCall client (.securityPolicyCreate d.name d.precedence d.description securitygroups []) rem

/-- The create call of resourceServiceCreate. -/
def serviceCreateCall {W : Type} (client : NSXClient W) (d : ServiceData) (rem : Remote W) :
    Response × Remote W :=
  doCall client (.serviceCreate d.scopeid d.name d.description d.protocol d.ports) rem

/-- The update call of resourceSecurityGroupUpdate when the resolver returned
`securityGroupObject`: its response and the remote side after it. -/
def securityGroupUpdateCall {W : Type} (client : NSXClient W) (d : SecurityGroupData)
    (securityGroupObject : SecurityGroup) (rem : Remote W) : Response × Remote W :=
  doCall client
    (.securityGroupUpdate securityGroupObject.ObjectID
      (securityGroupUpdateObject d securityGroupObject))
    (getSingleSecurityGroup client d.scopeid d.nameOld rem).2

/-- The update call of resourceServiceUpdate when the resolver returned `serviceObject`, issued
after the two listings that come before it. -/
def serviceUpdateCall {W : Type} (client : NSXClient W) (d : ServiceData)
    (serviceObject : ApplicationService) (rem : Remote W) : Response × Remote W :=
  doCall client (.serviceUpdate serviceObject.ObjectID (serviceApplyChanges d serviceObject).2)
    (getSingleService client d.scopeid d.nameOld
      (doCall client (.serviceGetAll d.scopeid) rem).2).2

/-- The service resource with its description changed. -/
def exampleServiceChanged : ServiceData :=
  { exampleServiceData with description := "all web traffic" }

/-- The group resource renamed from `web` to `web2`. -/
def exampleGroupRenamed : SecurityGroupData :=
  { exampleGroupData with name := "web2" }

/-- A remote group `web` with one membership set, to be read with no desired block. -/
def exampleBareGroupData : SecurityGroupData :=
  { id := "securitygroup-7", name := "web", nameOld := "web" }

/-! ## Theorems -/

/-! ### Helper lemmas -/

theorem readDynamicCriteriaLoop_eq (slice remote todo : List DynamicCriteria) :
    readDynamicCriteriaLoop slice remote todo = slice := by
  induction todo with
  | nil => rfl
  | cons x rest ih => simpa [readDynamicCriteriaLoop] using ih

theorem readDynamicCriteria_eq (localCriteriaList remote : List DynamicCriteria) :
    readDynamicCriteria localCriteriaList remote = localCriteriaList :=
  readDynamicCriteriaLoop_eq _ _ _

/-! ### C1 -/

/-- C1 (criteria merge copies remote key and comparator), evaluated on the code: for desired
`[key VM.NAME, value v1, criteria =]` against remote `[key VM.SECURITY_TAG, value v1, criteria
contains]` the merge described by the specification yields key VM.SECURITY_TAG and comparator
`contains`, but readDynamicCriteria leaves the desired list as it was (key VM.NAME, comparator
`=`); so does the definition the merge loop of resourceSecurityGroupRead builds from the
example group, and the resource data Read returns is the data it was given. -/
theorem readDynamicCriteria_keeps_desired_key :
    mergeCriteriaSpec exampleDesiredCriteria exampleRemoteCriteria
        = [{ Operator := "AND", Key := "VM.SECURITY_TAG", Criteria := "contains", Value := "v1" }]
      ∧ readDynamicCriteria exampleDesiredCriteria exampleRemoteCriteria
        = [{ Operator := "AND", Key := "VM.NAME", Criteria := "=", Value := "v1" }]
      ∧ mergeDynamicSets 0 [{ Operator := "OR", DynamicCriteria := exampleRemoteCriteria }]
          [{ Operator := "AND", DynamicCriteria := exampleDesiredCriteria }]
        = some [{ Operator := "OR",
                  DynamicCriteria :=
                    [{ Operator := "AND", Key := "VM.NAME", Criteria := "=", Value := "v1" }] }]
      ∧ (resourceSecurityGroupRead (staticClient [exampleRemoteGroup] [] []) exampleGroupData
            freshRemote).result = .ok
      ∧ (resourceSecurityGroupRead (staticClient [exampleRemoteGroup] [] []) exampleGroupData
            freshRemote).d = exampleGroupData := by
  refine ⟨by decide, by decide, by decide, by decide, by decide⟩

/-! ### C2 -/

theorem buildDynamicSetList_eq (m : List DynamicMembershipConfig) :
    buildDynamicSetList m = .ok (m.map desiredDynamicSet) := by
  induction m with
  | nil => rfl
  | cons data rest ih => simp [buildDynamicSetList, buildDynamicRules, ih, desiredDynamicSet]

theorem mergeDynamicSets_spec (remote : List DynamicSet) :
    ∀ (idx : Nat) (sets : List DynamicSet), idx + remote.length ≤ sets.length →
      ∃ res, mergeDynamicSets idx remote sets = some res ∧ res.length = sets.length
        ∧ (∀ j, j < idx → res[j]? = sets[j]?)
        ∧ (∀ j, idx + remote.length ≤ j → res[j]? = sets[j]?)
        ∧ (∀ k r, remote[k]? = some r →
            ∃ s, sets[idx + k]? = some s ∧ res[idx + k]? = some { s with Operator := r.Operator }) := by
  induction remote with
  | nil =>
    intro idx sets _
    exact ⟨sets, rfl, rfl, fun _ _ => rfl, fun _ _ => rfl, by simp⟩
  | cons r0 rest ih =>
    intro idx sets hlen
    simp only [List.length_cons] at hlen
    have hidx : idx < sets.length := by omega
    obtain ⟨res, hres, hl, hlo, hhi, hmid⟩ :=
      ih (idx + 1) (sets.set idx { sets[idx] with Operator := r0.Operator })
        (by simp only [List.length_set]; omega)
    refine ⟨res, ?_, ?_, ?_, ?_, ?_⟩
    · simp only [mergeDynamicSets, List.getElem?_eq_getElem hidx, readDynamicCriteria_eq]
      exact hres
    · simpa using hl
    · intro j hj
      rw [hlo j (by omega), List.getElem?_set_ne (by omega)]
    · intro j hj
      simp only [List.length_cons] at hj
      rw [hhi j (by omega), List.getElem?_set_ne (by omega)]
    · intro k r hk
      cases k with
      | zero =>
        simp only [List.getElem?_cons_zero, Option.some.injEq] at hk
        subst hk
        refine ⟨sets[idx], by simp [List.getElem?_eq_getElem hidx], ?_⟩
        rw [Nat.add_zero, hlo idx (by omega), List.getElem?_set_self hidx]
      | succ k =>
        simp only [List.getElem?_cons_succ] at hk
        obtain ⟨s, hs, hr⟩ := hmid k r hk
        rw [List.getElem?_set_ne (by omega)] at hs
        refine ⟨s, ?_, ?_⟩
        · rw [← hs]; congr 1; omega
        · rw [← hr]; congr 1; omega

theorem desiredDefinition_eq (m : List DynamicMembershipConfig) :
    (if m ≠ [] then buildDynamicMemberDefinition m else .ok ⟨[]⟩)
      = .ok ⟨m.map desiredDynamicSet⟩ := by
  cases m with
  | nil => rfl
  | cons data rest =>
    simp only [ne_eq, reduceCtorEq, not_false_eq_true, if_true, buildDynamicMemberDefinition,
      buildDynamicSetList_eq]

/-- C2, counterexample: the desired definition built from `exampleGroupData` has one set with
operator `AND`; Read finds the remote group `web`, whose definition has one set with operator
`OR` (so no more sets than the desired one); the merge loop, run on these two, ends with a
merged definition whose set operator is `OR`, the remote value and not the desired one; Read
returns no error. -/
theorem resourceSecurityGroupRead_replaces_set_operator :
    buildDynamicMemberDefinition exampleGroupData.dynamic_membership
        = .ok ⟨[{ Operator := "AND", DynamicCriteria := exampleDesiredCriteria }]⟩
      ∧ (getSingleSecurityGroup (staticClient [exampleRemoteGroup] [] [])
          exampleGroupData.scopeid exampleGroupData.name freshRemote).1
        = .ok { ObjectID := "securitygroup-7", Name := "web",
                DynamicMemberDefinition :=
                  some ⟨[{ Operator := "OR", DynamicCriteria := exampleRemoteCriteria }]⟩ }
      ∧ mergeDynamicSets 0 [{ Operator := "OR", DynamicCriteria := exampleRemoteCriteria }]
          [{ Operator := "AND", DynamicCriteria := exampleDesiredCriteria }]
        = some [{ Operator := "OR", DynamicCriteria := exampleDesiredCriteria }]
      ∧ (resourceSecurityGroupRead (staticClient [exampleRemoteGroup] [] []) exampleGroupData
          freshRemote).result = .ok :=
  ⟨rfl, rfl, by decide, by decide⟩

/-- C2, amended: when Read finds the group with a membership definition that has no more sets
than the desired `dynamic_membership`, the merge loop completes on the desired definition
built from the resource data and Read returns no error.  The merged definition the loop ends
with has as many sets as the desired one; the set at each position has as many criteria as
the desired block has rules, every criterion carries the block's `rules_operator`, and the set
operator is the remote set's operator at the positions the remote definition has and the
desired `set_operator` at the others. -/
theorem resourceSecurityGroupRead_merge_shape {W : Type} (client : NSXClient W)
    (d : SecurityGroupData) (rem : Remote W) (obj : SecurityGroup)
    (remoteDef : DynamicMemberDefinition)
    (hscope : d.scopeid ≠ "") (hname : d.name ≠ "")
    (hfound : (getSingleSecurityGroup client d.scopeid d.name rem).1 = .ok obj)
    (hid : obj.ObjectID ≠ "") (hdef : obj.DynamicMemberDefinition = some remoteDef)
    (hlen : remoteDef.DynamicSet.length ≤ d.dynamic_membership.length) :
    ∃ (desired : DynamicMemberDefinition) (merged : List DynamicSet),
      buildDynamicMemberDefinition d.dynamic_membership = .ok desired
      ∧ mergeDynamicSets 0 remoteDef.DynamicSet desired.DynamicSet = some merged
      ∧ (resourceSecurityGroupRead client d rem).result = .ok
      ∧ merged.length = d.dynamic_membership.length
      ∧ ∀ (i : Nat) (block : DynamicMembershipConfig), d.dynamic_membership[i]? = some block →
          ∃ m : DynamicSet, merged[i]? = some m
            ∧ m.DynamicCriteria.length = block.rules.length
            ∧ (∀ c ∈ m.DynamicCriteria, c.Operator = block.rules_operator)
            ∧ m.Operator = (match remoteDef.DynamicSet[i]? with
                            | some r => r.Operator
                            | none => block.set_operator) := by
  obtain ⟨res, hres, hl, -, hhi, hmid⟩ :=
    mergeDynamicSets_spec remoteDef.DynamicSet 0 (d.dynamic_membership.map desiredDynamicSet)
      (by simpa using hlen)
  have hsets : (d.dynamic_membership.map desiredDynamicSet).length
      = d.dynamic_membership.length := by simp
  refine ⟨⟨d.dynamic_membership.map desiredDynamicSet⟩, res, ?_, hres, ?_, hl.trans hsets, ?_⟩
  · simp only [buildDynamicMemberDefinition, buildDynamicSetList_eq]
  · simp only [resourceSecurityGroupRead, hscope, hname, if_false, desiredDefinition_eq, hfound,
      hid, hdef, hres]
  · intro i block hblock
    have hi : (d.dynamic_membership.map desiredDynamicSet)[i]? = some (desiredDynamicSet block) := by
      rw [List.getElem?_map, hblock]; rfl
    have hcrit : ∀ c ∈ (desiredDynamicSet block).DynamicCriteria,
        c.Operator = block.rules_operator := by
      intro c hc
      simp only [desiredDynamicSet, List.mem_map] at hc
      obtain ⟨rule, -, rfl⟩ := hc
      rfl
    have hcount : (desiredDynamicSet block).DynamicCriteria.length = block.rules.length := by
      simp [desiredDynamicSet]
    cases hr : remoteDef.DynamicSet[i]? with
    | none =>
      have hge : 0 + remoteDef.DynamicSet.length ≤ i := by
        have := List.getElem?_eq_none_iff.mp hr
        omega
      exact ⟨desiredDynamicSet block, (hhi i hge).trans hi, hcount, hcrit, rfl⟩
    | some r =>
      obtain ⟨s, hs, hm⟩ := hmid i r hr
      rw [Nat.zero_add] at hs hm
      rw [hi, Option.some.injEq] at hs
      subst hs
      exact ⟨{ desiredDynamicSet block with Operator := r.Operator }, hm, hcount, hcrit, rfl⟩

/-- C2, amended, at a concrete input: the example group read against the remote group whose
one set has operator `OR`. -/
theorem resourceSecurityGroupRead_merge_shape_witness :
    ∃ (desired : DynamicMemberDefinition) (merged : List DynamicSet),
      buildDynamicMemberDefinition exampleGroupData.dynamic_membership = .ok desired
      ∧ mergeDynamicSets 0 [{ Operator := "OR", DynamicCriteria := exampleRemoteCriteria }]
          desired.DynamicSet = some merged
      ∧ (resourceSecurityGroupRead (staticClient [exampleRemoteGroup] [] []) exampleGroupData
          freshRemote).result = .ok
      ∧ merged.length = exampleGroupData.dynamic_membership.length
      ∧ ∀ (i : Nat) (block : DynamicMembershipConfig),
          exampleGroupData.dynamic_membership[i]? = some block →
          ∃ m : DynamicSet, merged[i]? = some m
            ∧ m.DynamicCriteria.length = block.rules.length
            ∧ (∀ c ∈ m.DynamicCriteria, c.Operator = block.rules_operator)
            ∧ m.Operator = (match
                (⟨[{ Operator := "OR", DynamicCriteria := exampleRemoteCriteria }]⟩ :
                  DynamicMemberDefinition).DynamicSet[i]? with
                            | some r => r.Operator
                            | none => block.set_operator) :=
  resourceSecurityGroupRead_merge_shape (staticClient [exampleRemoteGroup] [] [])
    exampleGroupData freshRemote exampleRemoteGroup
    ⟨[{ Operator := "OR", DynamicCriteria := exampleRemoteCriteria }]⟩
    (by decide) (by decide) rfl (by decide) rfl (by decide)

/-! ### C3 -/

theorem findSecurityGroupScan_skip (name : String) (pre rest : List SecurityGroup)
    (hpre : ∀ x ∈ pre, x.Name ≠ name) :
    findSecurityGroupScan name (pre ++ rest) = findSecurityGroupScan name rest := by
  induction pre with
  | nil => rfl
  | cons x xs ih =>
    have hx : x.Name ≠ name := hpre x (List.mem_cons_self _ _)
    simp only [List.cons_append, findSecurityGroupScan, hx, if_false]
    exact ih fun y hy => hpre y (List.mem_cons_of_mem _ hy)

/-- C3: when the listing call returns no error, findSecurityGroup issues that one call and
returns, with no error, the first record in listing order whose Name equals the name (the
record `g` of any split `pre ++ g :: post` of the listing in which no record of `pre` has the
name), and the empty record when no listed record has that name. -/
theorem findSecurityGroup_first_hit {W : Type} (client : NSXClient W) (name scopeid : String)
    (rem : Remote W)
    (hok : (client (.securityGroupGetAll scopeid) rem.world).1.err = none) :
    (findSecurityGroup client name scopeid rem).2.calls
        = rem.calls ++ [.securityGroupGetAll scopeid]
      ∧ (∀ (pre post : List SecurityGroup) (g : SecurityGroup),
          (client (.securityGroupGetAll scopeid) rem.world).1.SecurityGroups = pre ++ g :: post →
          g.Name = name → (∀ x ∈ pre, x.Name ≠ name) →
          (findSecurityGroup client name scopeid rem).1 = .ok g)
      ∧ ((∀ x ∈ (client (.securityGroupGetAll scopeid) rem.world).1.SecurityGroups,
            x.Name ≠ name) →
          (findSecurityGroup client name scopeid rem).1 = .ok {}
            ∧ ({} : SecurityGroup).ObjectID = "") := by
  refine ⟨?_, ?_, ?_⟩
  · simp only [findSecurityGroup, doCall, hok]
  · intro pre post g hsplit hg hpre
    simp only [findSecurityGroup, doCall, hok, hsplit]
    rw [findSecurityGroupScan_skip name pre _ hpre]
    simp only [findSecurityGroupScan, hg, if_true]
  · intro hnone
    refine ⟨?_, rfl⟩
    simp only [findSecurityGroup, doCall, hok]
    have h := findSecurityGroupScan_skip name
      (client (.securityGroupGetAll scopeid) rem.world).1.SecurityGroups [] hnone
    rw [List.append_nil] at h
    rw [h]
    rfl

/-- C3 at a concrete listing with two groups named `web`: the first one is returned. -/
theorem findSecurityGroup_first_hit_witness :
    (findSecurityGroup
        (staticClient [{ ObjectID := "securitygroup-1", Name := "db" },
          { ObjectID := "securitygroup-2", Name := "web" },
          { ObjectID := "securitygroup-3", Name := "web" }] [] [])
        "web" "globalroot-0" freshRemote).1
      = .ok { ObjectID := "securitygroup-2", Name := "web" } :=
  (findSecurityGroup_first_hit
      (staticClient [{ ObjectID := "securitygroup-1", Name := "db" },
        { ObjectID := "securitygroup-2", Name := "web" },
        { ObjectID := "securitygroup-3", Name := "web" }] [] [])
      "web" "globalroot-0" freshRemote rfl).2.1
    [{ ObjectID := "securitygroup-1", Name := "db" }]
    [{ ObjectID := "securitygroup-3", Name := "web" }]
    { ObjectID := "securitygroup-2", Name := "web" } rfl rfl (by decide)

/-! ### C4 -/

theorem securityGroupFilterByName_not_found (name : String) (l : List SecurityGroup)
    (h : ∀ x ∈ l, x.Name ≠ name) : SecurityGroupList.FilterByName name l = {} := by
  induction l with
  | nil => rfl
  | cons x xs ih =>
    have hx : x.Name ≠ name := h x (List.mem_cons_self _ _)
    simp only [SecurityGroupList.FilterByName, hx, if_false]
    exact ih fun y hy => h y (List.mem_cons_of_mem _ hy)

theorem securityPolicyFilterByName_not_found (name : String) (l : List SecurityPolicy)
    (h : ∀ x ∈ l, x.Name ≠ name) : SecurityPolicyList.FilterByName name l = {} := by
  induction l with
  | nil => rfl
  | cons x xs ih =>
    have hx : x.Name ≠ name := h x (List.mem_cons_self _ _)
    simp only [SecurityPolicyList.FilterByName, hx, if_false]
    exact ih fun y hy => h y (List.mem_cons_of_mem _ hy)

theorem applicationsFilterByName_not_found (name : String) (l : List ApplicationService)
    (h : ∀ x ∈ l, x.Name ≠ name) : ApplicationsList.FilterByName name l = {} := by
  induction l with
  | nil => rfl
  | cons x xs ih =>
    have hx : x.Name ≠ name := h x (List.mem_cons_self _ _)
    simp only [ApplicationsList.FilterByName, hx, if_false]
    exact ih fun y hy => h y (List.mem_cons_of_mem _ hy)

theorem getSingleSecurityGroup_not_found {W : Type} (client : NSXClient W)
    (scopeID name : String) (rem : Remote W)
    (herr : (client (.securityGroupGetAll scopeID) rem.world).1.err = none)
    (hstatus : (client (.securityGroupGetAll scopeID) rem.world).1.StatusCode = 200)
    (hnone : ∀ x ∈ (client (.securityGroupGetAll scopeID) rem.world).1.SecurityGroups,
      x.Name ≠ name) :
    getSingleSecurityGroup client scopeID name rem
      = (.ok {}, ⟨(client (.securityGroupGetAll scopeID) rem.world).2,
          rem.calls ++ [.securityGroupGetAll scopeID]⟩) := by
  simp only [getSingleSecurityGroup, doCall, herr, hstatus, ne_eq, not_true_eq_false, if_false,
    securityGroupFilterByName_not_found name _ hnone]

theorem getSingleSecurityPolicy_not_found {W : Type} (client : NSXClient W)
    (name : String) (rem : Remote W)
    (herr : (client .securityPolicyGetAll rem.world).1.err = none)
    (hstatus : (client .securityPolicyGetAll rem.world).1.StatusCode = 200)
    (hnone : ∀ x ∈ (client .securityPolicyGetAll rem.world).1.SecurityPolicies, x.Name ≠ name) :
    getSingleSecurityPolicy client name rem
      = (.ok {}, ⟨(client .securityPolicyGetAll rem.world).2,
          rem.calls ++ [.securityPolicyGetAll]⟩) := by
  simp only [getSingleSecurityPolicy, doCall, herr, hstatus, ne_eq, not_true_eq_false, if_false,
    securityPolicyFilterByName_not_found name _ hnone]

theorem getSingleService_not_found {W : Type} (client : NSXClient W)
    (scopeid name : String) (rem : Remote W)
    (herr : (client (.serviceGetAll scopeid) rem.world).1.err = none)
    (hstatus : (client (.serviceGetAll scopeid) rem.world).1.StatusCode = 200)
    (hnone : ∀ x ∈ (client (.serviceGetAll scopeid) rem.world).1.Applications, x.Name ≠ name) :
    getSingleService client scopeid name rem
      = (.error (fmtErrorf "Not found %s" [name]),
          ⟨(client (.serviceGetAll scopeid) rem.world).2,
            rem.calls ++ [.serviceGetAll scopeid]⟩) := by
  simp only [getSingleService, doCall, herr, hstatus, ne_eq, not_true_eq_false, if_false,
    applicationsFilterByName_not_found name _ hnone, if_true]

/-- C4 (not-found is not an error in any resolver), evaluated on the code: against a remote
system whose listings succeed with status 200 and hold no object at all,
getSingleSecurityGroup and getSingleSecurityPolicy return the empty record with a nil error,
but getSingleService returns no record and the error `Not found web`. -/
theorem getSingleService_not_found_is_error :
    (getSingleSecurityGroup (staticClient [] [] []) "globalroot-0" "web" freshRemote).1
        = .ok { ObjectID := "" }
      ∧ (getSingleSecurityPolicy (staticClient [] [] []) "web" freshRemote).1
        = .ok { ObjectID := "" }
      ∧ (getSingleService (staticClient [] [] []) "globalroot-0" "web" freshRemote).1
        = .error (.errorf "Not found %s" ["web"]) :=
  ⟨rfl, rfl, rfl⟩

/-! ### C5 -/

theorem mapLookup_possibleCriteriaValues (v : String) :
    mapLookup possibleCriteriaValues v = true ↔
      v ∈ ["belongs_to", "starts_with", "ends_with", "=", "!=", "contains", "similar_to"] := by
  constructor
  · intro h
    by_contra hv
    simp only [List.mem_cons, List.mem_singleton, List.not_mem_nil, or_false, not_or] at hv
    obtain ⟨h1, h2, h3, h4, h5, h6, h7⟩ := hv
    simp [mapLookup, possibleCriteriaValues, List.find?, Ne.symm h1, Ne.symm h2, Ne.symm h3,
      Ne.symm h4, Ne.symm h5, Ne.symm h6, Ne.symm h7] at h
  · intro hv
    simp only [List.mem_cons, List.mem_singleton, List.not_mem_nil, or_false] at hv
    rcases hv with rfl | rfl | rfl | rfl | rfl | rfl | rfl <;> decide

theorem mapLookup_keyTypes (v : String) :
    mapLookup keyTypes v = true ↔
      v ∈ ["VM.SECURITY_TAG", "VM.GUEST_OS_FULL_NAME", "VM.GUEST_HOST_NAME", "VM.NAME",
        "ENTITY"] := by
  constructor
  · intro h
    by_contra hv
    simp only [List.mem_cons, List.mem_singleton, List.not_mem_nil, or_false, not_or] at hv
    obtain ⟨h1, h2, h3, h4, h5⟩ := hv
    simp [mapLookup, keyTypes, List.find?, Ne.symm h1, Ne.symm h2, Ne.symm h3,
      Ne.symm h4, Ne.symm h5] at h
  · intro hv
    simp only [List.mem_cons, List.mem_singleton, List.not_mem_nil, or_false] at hv
    rcases hv with rfl | rfl | rfl | rfl | rfl <;> decide

/-- C5: each validator returns errors exactly when the value is outside its fixed enumeration
(`AND`/`OR` for the two operators, the seven comparators, the five keys), and none of them
returns a warning.  The validators take only the value and the key: they have no client to
call. -/
theorem validators_reject_exactly_outside_enumeration (v k : String) :
    ((validateSecurityGroupSetOperator v k).2 ≠ [] ↔ (v ≠ "AND" ∧ v ≠ "OR"))
      ∧ ((validateSecurityGroupRulesOperator v k).2 ≠ [] ↔ (v ≠ "AND" ∧ v ≠ "OR"))
      ∧ ((validateSecurityGroupRuleCriteria v k).2 ≠ [] ↔
          v ∉ ["belongs_to", "starts_with", "ends_with", "=", "!=", "contains", "similar_to"])
      ∧ ((validateSecurityGroupRuleKey v k).2 ≠ [] ↔
          v ∉ ["VM.SECURITY_TAG", "VM.GUEST_OS_FULL_NAME", "VM.GUEST_HOST_NAME", "VM.NAME",
            "ENTITY"])
      ∧ (validateSecurityGroupSetOperator v k).1 = []
      ∧ (validateSecurityGroupRulesOperator v k).1 = []
      ∧ (validateSecurityGroupRuleCriteria v k).1 = []
      ∧ (validateSecurityGroupRuleKey v k).1 = [] := by
  refine ⟨?_, ?_, ?_, ?_, ?_, ?_, ?_, ?_⟩
  · unfold validateSecurityGroupSetOperator
    split_ifs with h <;> simp_all [and_comm]
  · unfold validateSecurityGroupRulesOperator
    split_ifs with h <;> simp_all [and_comm]
  · unfold validateSecurityGroupRuleCriteria
    rw [← mapLookup_possibleCriteriaValues]
    split_ifs with h <;> simp [h]
  · unfold validateSecurityGroupRuleKey
    rw [← mapLookup_keyTypes]
    split_ifs with h <;> simp [h]
  · unfold validateSecurityGroupSetOperator; split_ifs <;> rfl
  · unfold validateSecurityGroupRulesOperator; split_ifs <;> rfl
  · unfold validateSecurityGroupRuleCriteria; split_ifs <;> rfl
  · unfold validateSecurityGroupRuleKey; split_ifs <;> rfl

/-! ### C6 -/

theorem findSecurityGroup_eq {W : Type} (client : NSXClient W) (name scopeid : String)
    (rem : Remote W) (herr : (client (.securityGroupGetAll scopeid) rem.world).1.err = none) :
    findSecurityGroup client name scopeid rem
      = (.ok (findSecurityGroupScan name
            (client (.securityGroupGetAll scopeid) rem.world).1.SecurityGroups),
          ⟨(client (.securityGroupGetAll scopeid) rem.world).2,
            rem.calls ++ [.securityGroupGetAll scopeid]⟩) := by
  simp only [findSecurityGroup, doCall, herr]

/-- C6, counterexample: scope `globalroot-0`, name `web`, and a listing that holds two groups
named `web`, the first with an empty ObjectID and the second with ObjectID `securitygroup-2`;
so the listing contains a group of that name with a non-empty ObjectID.  Create looks at the
first match only: it adopts nothing, issues a create call, and `existing` stays false. -/
theorem resourceSecurityGroupCreate_first_match_without_id :
    (∃ g ∈ [({ ObjectID := "", Name := "web" } : SecurityGroup),
              { ObjectID := "securitygroup-2", Name := "web" }],
        g.Name = "web" ∧ g.ObjectID ≠ "")
      ∧ (resourceSecurityGroupCreate
        (staticClient [{ ObjectID := "", Name := "web" },
          { ObjectID := "securitygroup-2", Name := "web" }] [] [])
        { scopeid := "globalroot-0", name := "web" } freshRemote).rem.calls
          = [.securityGroupGetAll "globalroot-0",
             .securityGroupCreate "globalroot-0" "web" none,
             .securityGroupGetAll "globalroot-0"]
      ∧ (resourceSecurityGroupCreate
        (staticClient [{ ObjectID := "", Name := "web" },
          { ObjectID := "securitygroup-2", Name := "web" }] [] [])
        { scopeid := "globalroot-0", name := "web" } freshRemote).d.existing = false
      ∧ (resourceSecurityGroupCreate
        (staticClient [{ ObjectID := "", Name := "web" },
          { ObjectID := "securitygroup-2", Name := "web" }] [] [])
        { scopeid := "globalroot-0", name := "web" } freshRemote).d.id ≠ "securitygroup-2" := by
  refine ⟨⟨{ ObjectID := "securitygroup-2", Name := "web" }, by decide, by decide, by decide⟩,
    by decide, by decide, by decide⟩

/-- C6, amended: for a desired state that has its scope and its name (both non-empty, as
Create requires), when the listing of the scope returns no error and its first group with the
desired name (`g`, after a prefix `pre` without that name) has a non-empty ObjectID, Create
with no `dynamic_membership` returns no error, binds the id to that ObjectID, sets `existing`,
and its only remote call is the listing: every create call in the trace was there before. -/
theorem resourceSecurityGroupCreate_adopts {W : Type} (client : NSXClient W)
    (d : SecurityGroupData) (rem : Remote W) (pre post : List SecurityGroup) (g : SecurityGroup)
    (hscope : d.scopeid ≠ "") (hname : d.name ≠ "") (hdm : d.dynamic_membership = [])
    (herr : (client (.securityGroupGetAll d.scopeid) rem.world).1.err = none)
    (hsplit : (client (.securityGroupGetAll d.scopeid) rem.world).1.SecurityGroups
      = pre ++ g :: post)
    (hpre : ∀ x ∈ pre, x.Name ≠ d.name) (hg : g.Name = d.name) (hid : g.ObjectID ≠ "") :
    (resourceSecurityGroupCreate client d rem).result = .ok
      ∧ (resourceSecurityGroupCreate client d rem).d.id = g.ObjectID
      ∧ (resourceSecurityGroupCreate client d rem).d.existing = true
      ∧ (resourceSecurityGroupCreate client d rem).rem.calls
          = rem.calls ++ [.securityGroupGetAll d.scopeid]
      ∧ ∀ c ∈ (resourceSecurityGroupCreate client d rem).rem.calls,
          c.isCreate = true → c ∈ rem.calls := by
  have hscan : findSecurityGroupScan d.name (pre ++ g :: post) = g := by
    rw [findSecurityGroupScan_skip d.name pre _ hpre]
    simp only [findSecurityGroupScan, hg, if_true]
  have hrun : resourceSecurityGroupCreate client d rem
      = ⟨.ok, { d with id := g.ObjectID, existing := true },
          ⟨(client (.securityGroupGetAll d.scopeid) rem.world).2,
            rem.calls ++ [.securityGroupGetAll d.scopeid]⟩⟩ := by
    simp only [resourceSecurityGroupCreate, hscope, hname, if_false, hdm, ne_eq,
      not_true_eq_false, findSecurityGroup_eq client d.name d.scopeid rem herr, hsplit, hscan,
      hid, not_false_eq_true, if_true]
  rw [hrun]
  refine ⟨rfl, rfl, rfl, rfl, ?_⟩
  intro c hc hcreate
  rcases List.mem_append.mp hc with h | h
  · exact h
  · rw [List.mem_singleton] at h
    subst h
    simp [Request.isCreate] at hcreate

/-- C6, amended, at a concrete input: the group `web` is listed twice after `db`; Create adopts
the first of the two. -/
theorem resourceSecurityGroupCreate_adopts_witness :
    (resourceSecurityGroupCreate
        (staticClient [{ ObjectID := "securitygroup-1", Name := "db" },
          { ObjectID := "securitygroup-2", Name := "web" },
          { ObjectID := "securitygroup-3", Name := "web" }] [] [])
        { scopeid := "globalroot-0", name := "web" } freshRemote).d.id = "securitygroup-2" :=
  (resourceSecurityGroupCreate_adopts
      (staticClient [{ ObjectID := "securitygroup-1", Name := "db" },
        { ObjectID := "securitygroup-2", Name := "web" },
        { ObjectID := "securitygroup-3", Name := "web" }] [] [])
      { scopeid := "globalroot-0", name := "web" } freshRemote
      [{ ObjectID := "securitygroup-1", Name := "db" }]
      [{ ObjectID := "securitygroup-3", Name := "web" }]
      { ObjectID := "securitygroup-2", Name := "web" }
      (by decide) (by decide) rfl rfl rfl (by decide) rfl (by decide)).2.1

/-! ### C7 -/

/-- C7: when `existing` or `no_delete` is set, Delete returns success without any remote call:
the trace and the remote world are the ones it started from, and the resource data is left
as it was. -/
theorem resourceSecurityGroupDelete_gated {W : Type} (client : NSXClient W)
    (d : SecurityGroupData) (rem : Remote W)
    (h : d.existing = true ∨ d.no_delete = true) :
    (resourceSecurityGroupDelete client d rem).result = .ok
      ∧ (resourceSecurityGroupDelete client d rem).rem.calls = rem.calls
      ∧ (resourceSecurityGroupDelete client d rem).rem.world = rem.world
      ∧ (resourceSecurityGroupDelete client d rem).d = d := by
  simp only [resourceSecurityGroupDelete, h, if_true, and_self]

/-- C7 at a concrete input: an adopted group that exists remotely is not deleted. -/
theorem resourceSecurityGroupDelete_gated_witness :
    (resourceSecurityGroupDelete (staticClient [exampleRemoteGroup] [] [])
        { exampleGroupData with existing := true } freshRemote).result = .ok
      ∧ (resourceSecurityGroupDelete (staticClient [exampleRemoteGroup] [] [])
        { exampleGroupData with existing := true } freshRemote).rem.calls = [] :=
  ⟨(resourceSecurityGroupDelete_gated (staticClient [exampleRemoteGroup] [] [])
      { exampleGroupData with existing := true } freshRemote (Or.inl rfl)).1,
   (resourceSecurityGroupDelete_gated (staticClient [exampleRemoteGroup] [] [])
      { exampleGroupData with existing := true } freshRemote (Or.inl rfl)).2.1⟩

/-! ### C8 -/

theorem OnlyListings.refl (l : List Request) : OnlyListings l l :=
  ⟨[], by simp, by simp⟩

theorem OnlyListings.trans {a b c : List Request} (h1 : OnlyListings a b)
    (h2 : OnlyListings b c) : OnlyListings a c := by
  obtain ⟨n1, rfl, hn1⟩ := h1
  obtain ⟨n2, rfl, hn2⟩ := h2
  refine ⟨n1 ++ n2, by simp, ?_⟩
  intro x hx
  rcases List.mem_append.mp hx with h | h
  · exact hn1 x h
  · exact hn2 x h

theorem OnlyListings.step (l : List Request) (req : Request) (h : req.isGetAll = true) :
    OnlyListings l (l ++ [req]) :=
  ⟨[req], rfl, by simpa using h⟩

theorem isUpdate_of_isGetAll (c : Request) (h : c.isGetAll = true) : c.isUpdate = false := by
  cases c <;> simp_all [Request.isGetAll, Request.isUpdate]

theorem getSingleSecurityGroup_calls {W : Type} (client : NSXClient W) (scopeID name : String)
    (rem : Remote W) :
    (getSingleSecurityGroup client scopeID name rem).2.calls
      = rem.calls ++ [.securityGroupGetAll scopeID] := by
  simp only [getSingleSecurityGroup]
  repeat' split
  all_goals rfl

theorem getSingleService_calls {W : Type} (client : NSXClient W) (scopeid name : String)
    (rem : Remote W) :
    (getSingleService client scopeid name rem).2.calls
      = rem.calls ++ [.serviceGetAll scopeid] := by
  simp only [getSingleService]
  repeat' split
  all_goals rfl

theorem resourceSecurityGroupRead_calls {W : Type} (client : NSXClient W)
    (d : SecurityGroupData) (rem : Remote W) :
    OnlyListings rem.calls (resourceSecurityGroupRead client d rem).rem.calls := by
  have hg : OnlyListings rem.calls (getSingleSecurityGroup client d.scopeid d.name rem).2.calls := by
    rw [getSingleSecurityGroup_calls]
    exact OnlyListings.step _ _ rfl
  simp only [resourceSecurityGroupRead]
  repeat' split
  all_goals first | exact OnlyListings.refl _ | exact hg

theorem resourceServiceRead_calls {W : Type} (client : NSXClient W)
    (d : ServiceData) (rem : Remote W) :
    OnlyListings rem.calls (resourceServiceRead client d rem).rem.calls := by
  have h1 : OnlyListings rem.calls (doCall client (.serviceGetAll d.scopeid) rem).2.calls :=
    OnlyListings.step _ _ rfl
  have h2 : OnlyListings rem.calls
      (getSingleService client d.scopeid d.name
        (doCall client (.serviceGetAll d.scopeid) rem).2).2.calls := by
    rw [getSingleService_calls]
    exact h1.trans (OnlyListings.step _ _ rfl)
  simp only [resourceServiceRead]
  repeat' split
  all_goals first | exact OnlyListings.refl _ | exact h1 | exact h2

theorem hasChangeDynamicMembership_false (d : SecurityGroupData)
    (hold : d.dynamic_membershipOld = []) (hnew : d.dynamic_membership = []) :
    hasChangeDynamicMembership d = false := by
  simp [hasChangeDynamicMembership, hold, hnew]

theorem hasChangeDynamicMembership_true (d : SecurityGroupData)
    (h : d.dynamic_membershipOld ≠ [] ∨ d.dynamic_membership ≠ []) :
    hasChangeDynamicMembership d = true := by
  simp only [hasChangeDynamicMembership, decide_eq_true_eq]
  exact h

theorem resourceSecurityGroupUpdate_unchanged_calls {W : Type} (client : NSXClient W)
    (d : SecurityGroupData) (rem : Remote W) (hname : d.nameOld = d.name)
    (hold : d.dynamic_membershipOld = []) (hnew : d.dynamic_membership = []) :
    OnlyListings rem.calls (resourceSecurityGroupUpdate client d rem).rem.calls := by
  have hg : OnlyListings rem.calls
      (getSingleSecurityGroup client d.scopeid d.nameOld rem).2.calls := by
    rw [getSingleSecurityGroup_calls]
    exact OnlyListings.step _ _ rfl
  have hr := resourceSecurityGroupRead_calls client d
    (getSingleSecurityGroup client d.scopeid d.nameOld rem).2
  have hn : (d.nameOld ≠ d.name) = False := by simp [hname]
  simp only [resourceSecurityGroupUpdate, hn, hasChangeDynamicMembership_false d hold hnew,
    if_false, securityGroupUpdateFinish, Bool.false_eq_true]
  repeat' split
  all_goals first | exact OnlyListings.refl _ | exact hg | exact hg.trans hr

theorem serviceApplyChanges_unchanged (d : ServiceData) (obj : ApplicationService)
    (hname : d.nameOld = d.name) (hdesc : d.descriptionOld = d.description)
    (hproto : d.protocolOld = d.protocol) (hports : d.portsOld = d.ports) :
    serviceApplyChanges d obj = (false, obj) := by
  simp [serviceApplyChanges, hname, hdesc, hproto, hports]

theorem resourceServiceUpdate_unchanged_calls {W : Type} (client : NSXClient W)
    (d : ServiceData) (rem : Remote W) (hname : d.nameOld = d.name)
    (hdesc : d.descriptionOld = d.description) (hproto : d.protocolOld = d.protocol)
    (hports : d.portsOld = d.ports) :
    OnlyListings rem.calls (resourceServiceUpdate client d rem).rem.calls := by
  have h1 : OnlyListings rem.calls (doCall client (.serviceGetAll d.scopeid) rem).2.calls :=
    OnlyListings.step _ _ rfl
  have h2 : OnlyListings rem.calls
      (getSingleService client d.scopeid d.nameOld
        (doCall client (.serviceGetAll d.scopeid) rem).2).2.calls := by
    rw [getSingleService_calls]
    exact h1.trans (OnlyListings.step _ _ rfl)
  have hr := resourceServiceRead_calls client d
    (getSingleService client d.scopeid d.nameOld
      (doCall client (.serviceGetAll d.scopeid) rem).2).2
  simp only [resourceServiceUpdate, serviceApplyChanges_unchanged d _ hname hdesc hproto hports,
    Bool.false_eq_true, if_false]
  repeat' split
  all_goals first | exact OnlyListings.refl _ | exact h1 | exact h2 | exact h2.trans hr

/-- The part of the idempotence property that holds on the code: a security group with an
unchanged name and no membership block, old or new, and a service with unchanged name,
description, protocol and ports.  Every remote call that Update adds to the trace is then a
listing, whether or not the object still resolves remotely. -/
theorem update_unchanged_without_block_only_lists :
    (∀ (W : Type) (client : NSXClient W) (d : SecurityGroupData) (rem : Remote W),
        d.nameOld = d.name → d.dynamic_membershipOld = [] → d.dynamic_membership = [] →
        ∃ new, (resourceSecurityGroupUpdate client d rem).rem.calls = rem.calls ++ new
          ∧ ∀ c ∈ new, c.isUpdate = false ∧ c.isGetAll = true)
      ∧ (∀ (W : Type) (client : NSXClient W) (d : ServiceData) (rem : Remote W),
        d.nameOld = d.name → d.descriptionOld = d.description →
        d.protocolOld = d.protocol → d.portsOld = d.ports →
        ∃ new, (resourceServiceUpdate client d rem).rem.calls = rem.calls ++ new
          ∧ ∀ c ∈ new, c.isUpdate = false ∧ c.isGetAll = true) := by
  constructor
  · intro W client d rem hname hold hnew
    obtain ⟨new, hnew', hall⟩ :=
      resourceSecurityGroupUpdate_unchanged_calls client d rem hname hold hnew
    exact ⟨new, hnew', fun c hc => ⟨isUpdate_of_isGetAll c (hall c hc), hall c hc⟩⟩
  · intro W client d rem hname hdesc hproto hports
    obtain ⟨new, hnew, hall⟩ :=
      resourceServiceUpdate_unchanged_calls client d rem hname hdesc hproto hports
    exact ⟨new, hnew, fun c hc => ⟨isUpdate_of_isGetAll c (hall c hc), hall c hc⟩⟩

/-- C8 (idempotent update), evaluated on the code.  The example group has the same name and the
same one membership block in its old and its new state, and it still resolves remotely.
`d.HasChange("dynamic_membership")` reports a change all the same, because a block is present,
so resourceSecurityGroupUpdate issues an update call between its two listings, carrying the
desired definition.  The unchanged example service, and the group without a block, are
updated with listings only. -/
theorem resourceSecurityGroupUpdate_unchanged_block_issues_update :
    exampleGroupData.nameOld = exampleGroupData.name
      ∧ exampleGroupData.dynamic_membershipOld = exampleGroupData.dynamic_membership
      ∧ hasChangeDynamicMembership exampleGroupData = true
      ∧ (getSingleSecurityGroup (staticClient [exampleRemoteGroup] [] [])
          exampleGroupData.scopeid exampleGroupData.nameOld freshRemote).1
        = .ok exampleRemoteGroup
      ∧ (resourceSecurityGroupUpdate (staticClient [exampleRemoteGroup] [] []) exampleGroupData
          freshRemote).rem.calls
        = [.securityGroupGetAll "globalroot-0",
           .securityGroupUpdate "securitygroup-7"
             { ObjectID := "securitygroup-7", Name := "web",
               DynamicMemberDefinition :=
                 some ⟨[{ Operator := "AND", DynamicCriteria := exampleDesiredCriteria }]⟩ },
           .securityGroupGetAll "globalroot-0"]
      ∧ (resourceSecurityGroupUpdate
          (staticClient [{ ObjectID := "securitygroup-7", Name := "web" }] [] [])
          exampleBareGroupData freshRemote).rem.calls
        = [.securityGroupGetAll "globalroot-0", .securityGroupGetAll "globalroot-0"]
      ∧ (resourceServiceUpdate (staticClient [] [] [exampleRemoteService]) exampleServiceData
          freshRemote).rem.calls
        = [.serviceGetAll "globalroot-0", .serviceGetAll "globalroot-0",
           .serviceGetAll "globalroot-0", .serviceGetAll "globalroot-0"] :=
  ⟨by decide, by decide, by decide, rfl, by decide, by decide, by decide⟩

/-! ### C9 -/

/-- C9: for a local state with non-empty id, scope and name, when the listing returns no
error, has status 200 and holds no object with that name, resourceSecurityGroupRead sets the
local id to the empty string and returns no error; so does resourceSecurityPolicyRead (whose
listing has no scope) for a local state with non-empty id and name. -/
theorem read_not_found_clears_id :
    (∀ (W : Type) (client : NSXClient W) (d : SecurityGroupData) (rem : Remote W),
        d.id ≠ "" → d.scopeid ≠ "" → d.name ≠ "" →
        (client (.securityGroupGetAll d.scopeid) rem.world).1.err = none →
        (client (.securityGroupGetAll d.scopeid) rem.world).1.StatusCode = 200 →
        (∀ x ∈ (client (.securityGroupGetAll d.scopeid) rem.world).1.SecurityGroups,
          x.Name ≠ d.name) →
        (resourceSecurityGroupRead client d rem).result = .ok
          ∧ (resourceSecurityGroupRead client d rem).d.id = "")
      ∧ (∀ (W : Type) (client : NSXClient W) (d : SecurityPolicyData) (rem : Remote W),
        d.id ≠ "" → d.name ≠ "" →
        (client .securityPolicyGetAll rem.world).1.err = none →
        (client .securityPolicyGetAll rem.world).1.StatusCode = 200 →
        (∀ x ∈ (client .securityPolicyGetAll rem.world).1.SecurityPolicies, x.Name ≠ d.name) →
        (resourceSecurityPolicyRead client d rem).result = .ok
          ∧ (resourceSecurityPolicyRead client d rem).d.id = "") := by
  constructor
  · intro W client d rem _ hscope hname herr hstatus hnone
    simp only [resourceSecurityGroupRead, hscope, hname, if_false, desiredDefinition_eq,
      getSingleSecurityGroup_not_found client d.scopeid d.name rem herr hstatus hnone, if_true,
      and_self]
  · intro W client d rem _ hname herr hstatus hnone
    simp only [resourceSecurityPolicyRead, hname, if_false,
      getSingleSecurityPolicy_not_found client d.name rem herr hstatus hnone, if_true, and_self]

/-- C9 at concrete inputs: a group and a policy with bound ids, read against a remote system
that lists other objects only. -/
theorem read_not_found_clears_id_witness :
    ((resourceSecurityGroupRead (staticClient [{ ObjectID := "securitygroup-1", Name := "db" }] [] [])
          exampleGroupData freshRemote).result = .ok
        ∧ (resourceSecurityGroupRead
          (staticClient [{ ObjectID := "securitygroup-1", Name := "db" }] [] [])
          exampleGroupData freshRemote).d.id = "")
      ∧ ((resourceSecurityPolicyRead (staticClient [] [{ ObjectID := "policy-1", Name := "p1" }] [])
          { id := "policy-2", name := "p2" } freshRemote).result = .ok
        ∧ (resourceSecurityPolicyRead
          (staticClient [] [{ ObjectID := "policy-1", Name := "p1" }] [])
          { id := "policy-2", name := "p2" } freshRemote).d.id = "") :=
  ⟨read_not_found_clears_id.1 Unit
      (staticClient [{ ObjectID := "securitygroup-1", Name := "db" }] [] [])
      exampleGroupData freshRemote (by decide) (by decide) (by decide) rfl rfl (by decide),
   read_not_found_clears_id.2 Unit
      (staticClient [] [{ ObjectID := "policy-1", Name := "p1" }] [])
      { id := "policy-2", name := "p2" } freshRemote (by decide) (by decide) rfl rfl
      (by decide)⟩

/-! ### C10 -/

/-- C10 (rename semantics of Update), evaluated on the code against a remote system whose
listings succeed with status 200.

* Security group, rename `web` to `web2`, nothing listed: the old name does not resolve, yet
  resourceSecurityGroupUpdate issues an update call, with the empty id (the trace is listing,
  update, listing).
* Security group, same rename, a group `web2` listed: the old name does not resolve, the update
  call with the empty id is issued, and the local id is not cleared, because the closing Read
  resolves the new name.
* Service `http` with no change, nothing listed: resourceServiceUpdate ends in a nil
  dereference, getSingleService having returned no record, and the local id is not cleared. -/
theorem update_unresolved_old_name_behaviour :
    (resourceSecurityGroupUpdate (staticClient [] [] [])
        { id := "securitygroup-7", name := "web2", nameOld := "web" } freshRemote).rem.calls
        = [.securityGroupGetAll "globalroot-0",
           .securityGroupUpdate "" { ObjectID := "", Name := "web2" },
           .securityGroupGetAll "globalroot-0"]
      ∧ (resourceSecurityGroupUpdate
          (staticClient [{ ObjectID := "securitygroup-9", Name := "web2" }] [] [])
          { id := "securitygroup-7", name := "web2", nameOld := "web" } freshRemote).rem.calls
        = [.securityGroupGetAll "globalroot-0",
           .securityGroupUpdate "" { ObjectID := "", Name := "web2" },
           .securityGroupGetAll "globalroot-0"]
      ∧ (resourceSecurityGroupUpdate
          (staticClient [{ ObjectID := "securitygroup-9", Name := "web2" }] [] [])
          { id := "securitygroup-7", name := "web2", nameOld := "web" } freshRemote).d.id
        = "securitygroup-7"
      ∧ (resourceServiceUpdate (staticClient [] [] []) exampleServiceData freshRemote).result
        = .panic nilDereference
      ∧ (resourceServiceUpdate (staticClient [] [] []) exampleServiceData freshRemote).d.id
        = "application-3" := by
  refine ⟨by decide, by decide, by decide, by decide, by decide⟩

/-! ### C11 -/

theorem fmtErrorf_percent_s (body : String) : (fmtErrorf "%s" [body]).Error = some body := by
  have h : "%s".data = ['%', 's'] := by decide
  simp [fmtErrorf, GoError.Error, h, goSprintf]

theorem securityGroupCreateDefinition_eq (d : SecurityGroupData) :
    (if d.dynamic_membership ≠ [] then
        (match buildDynamicMemberDefinition d.dynamic_membership with
          | .error err => Except.error err
          | .ok definition => Except.ok (some definition))
      else Except.ok none) = .ok (securityGroupCreateDefinition d) := by
  unfold securityGroupCreateDefinition
  split_ifs with h
  · simp only [buildDynamicMemberDefinition, buildDynamicSetList_eq]
  · rfl

theorem findSecurityGroup_not_found {W : Type} (client : NSXClient W) (name scopeid : String)
    (rem : Remote W) (herr : (client (.securityGroupGetAll scopeid) rem.world).1.err = none)
    (hnone : ∀ x ∈ (client (.securityGroupGetAll scopeid) rem.world).1.SecurityGroups,
      x.Name ≠ name) :
    findSecurityGroup client name scopeid rem
      = (.ok {}, (doCall client (.securityGroupGetAll scopeid) rem).2) := by
  have h := findSecurityGroupScan_skip name
    (client (.securityGroupGetAll scopeid) rem.world).1.SecurityGroups [] hnone
  rw [List.append_nil] at h
  rw [findSecurityGroup_eq client name scopeid rem herr, h]
  rfl

/-- What each Create does with the response of its create call, once that call has been
issued and has returned without a transport error (for a security group: after a listing that
holds no group of that name).  A status code other than 201 gives an error whose message is
the response body, with the resource data as it was and the trace ending with the create
call; status 201 makes the outcome that of Read started from the data with the returned id. -/
theorem create_call_outcome :
    (∀ (W : Type) (client : NSXClient W) (d : SecurityGroupData) (rem : Remote W),
        d.scopeid ≠ "" → d.name ≠ "" →
        (client (.securityGroupGetAll d.scopeid) rem.world).1.err = none →
        (∀ x ∈ (client (.securityGroupGetAll d.scopeid) rem.world).1.SecurityGroups,
          x.Name ≠ d.name) →
        (securityGroupCreateCall client d rem).1.err = none →
        ((securityGroupCreateCall client d rem).1.StatusCode ≠ 201 →
          ∃ e, (resourceSecurityGroupCreate client d rem).result = .error e
            ∧ e.Error = some (securityGroupCreateCall client d rem).1.ResponseObject
            ∧ (resourceSecurityGroupCreate client d rem).d = d
            ∧ (resourceSecurityGroupCreate client d rem).rem.calls
                = rem.calls ++ [.securityGroupGetAll d.scopeid,
                    .securityGroupCreate d.scopeid d.name (securityGroupCreateDefinition d)])
        ∧ ((securityGroupCreateCall client d rem).1.StatusCode = 201 →
          resourceSecurityGroupCreate client d rem
            = resourceSecurityGroupRead client
                { d with id := (securityGroupCreateCall client d rem).1.CreatedID }
                (securityGroupCreateCall client d rem).2))
      ∧ (∀ (W : Type) (client : NSXClient W) (d : SecurityPolicyData) (rem : Remote W)
          (securitygroups : List String),
        d.name ≠ "" → d.precedence ≠ "" → d.description ≠ "" → d.securitygroups ≠ [] →
        collectSecurityGroups d.securitygroups = .ok securitygroups →
        (securityPolicyCreateCall client d securitygroups rem).1.err = none →
        ((securityPolicyCreateCall client d securitygroups rem).1.StatusCode ≠ 201 →
          ∃ e, (resourceSecurityPolicyCreate client d rem).result = .error e
            ∧ e.Error = some (securityPolicyCreateCall client d securitygroups rem).1.ResponseObject
            ∧ (resourceSecurityPolicyCreate client d rem).d = d
            ∧ (resourceSecurityPolicyCreate client d rem).rem.calls
                = rem.calls
                  ++ [.securityPolicyCreate d.name d.precedence d.description securitygroups []])
        ∧ ((securityPolicyCreateCall client d securitygroups rem).1.StatusCode = 201 →
          resourceSecurityPolicyCreate client d rem
            = resourceSecurityPolicyRead client
                { d with id := (securityPolicyCreateCall client d securitygroups rem).1.CreatedID }
                (securityPolicyCreateCall client d securitygroups rem).2))
      ∧ (∀ (W : Type) (client : NSXClient W) (d : ServiceData) (rem : Remote W),
        d.name ≠ "" → d.scopeid ≠ "" → d.description ≠ "" → d.protocol ≠ "" →
        (serviceCreateCall client d rem).1.err = none →
        ((serviceCreateCall client d rem).1.StatusCode ≠ 201 →
          ∃ e, (resourceServiceCreate client d rem).result = .error e
            ∧ e.Error = some (serviceCreateCall client d rem).1.ResponseObject
            ∧ (resourceServiceCreate client d rem).d = d
            ∧ (resourceServiceCreate client d rem).rem.calls
                = rem.calls
                  ++ [.serviceCreate d.scopeid d.name d.description d.protocol d.ports])
        ∧ ((serviceCreateCall client d rem).1.StatusCode = 201 →
          resourceServiceCreate client d rem
            = resourceServiceRead client
                { d with id := (serviceCreateCall client d rem).1.CreatedID }
                (serviceCreateCall client d rem).2)) := by
  refine ⟨?_, ?_, ?_⟩
  · intro W client d rem hscope hname herr hnone hcreate
    have hcreate' := hcreate
    simp only [securityGroupCreateCall] at hcreate'
    constructor
    · intro hstatus
      have hstatus' := hstatus
      simp only [securityGroupCreateCall] at hstatus'
      refine ⟨fmtErrorf "%s" [(securityGroupCreateCall client d rem).1.ResponseObject], ?_,
        fmtErrorf_percent_s _, ?_, ?_⟩
      · simp only [resourceSecurityGroupCreate, hscope, hname, if_false,
          securityGroupCreateDefinition_eq,
          findSecurityGroup_not_found client d.name d.scopeid rem herr hnone, ne_eq,
          not_true_eq_false, hcreate', hstatus', not_false_eq_true, if_true,
          securityGroupCreateCall]
      · simp only [resourceSecurityGroupCreate, hscope, hname, if_false,
          securityGroupCreateDefinition_eq,
          findSecurityGroup_not_found client d.name d.scopeid rem herr hnone, ne_eq,
          not_true_eq_false, hcreate', hstatus', not_false_eq_true, if_true]
      · simp only [resourceSecurityGroupCreate, hscope, hname, if_false,
          securityGroupCreateDefinition_eq,
          findSecurityGroup_not_found client d.name d.scopeid rem herr hnone, ne_eq,
          not_true_eq_false, hcreate', hstatus', not_false_eq_true, if_true]
        simp [doCall]
    · intro hstatus
      have hstatus' := hstatus
      simp only [securityGroupCreateCall] at hstatus'
      simp only [resourceSecurityGroupCreate, hscope, hname, if_false,
        securityGroupCreateDefinition_eq,
        findSecurityGroup_not_found client d.name d.scopeid rem herr hnone, ne_eq,
        not_true_eq_false, hcreate', hstatus', if_false, securityGroupCreateCall]
  · intro W client d rem ids hname hprec hdesc hgroups hcollect hcreate
    have hcreate' := hcreate
    simp only [securityPolicyCreateCall] at hcreate'
    constructor
    · intro hstatus
      have hstatus' := hstatus
      simp only [securityPolicyCreateCall] at hstatus'
      refine ⟨fmtErrorf "%s" [(securityPolicyCreateCall client d ids rem).1.ResponseObject], ?_,
        fmtErrorf_percent_s _, ?_, ?_⟩
      · simp only [resourceSecurityPolicyCreate, hname, hprec, hdesc, hgroups, if_false, hcollect,
          hcreate', hstatus', ne_eq, not_false_eq_true, if_true, securityPolicyCreateCall]
      · simp only [resourceSecurityPolicyCreate, hname, hprec, hdesc, hgroups, if_false, hcollect,
          hcreate', hstatus', ne_eq, not_false_eq_true, if_true]
      · simp only [resourceSecurityPolicyCreate, hname, hprec, hdesc, hgroups, if_false, hcollect,
          hcreate', hstatus', ne_eq, not_false_eq_true, if_true]
        simp [doCall]
    · intro hstatus
      have hstatus' := hstatus
      simp only [securityPolicyCreateCall] at hstatus'
      simp only [resourceSecurityPolicyCreate, hname, hprec, hdesc, hgroups, if_false, hcollect,
        hcreate', hstatus', ne_eq, not_true_eq_false, securityPolicyCreateCall]
  · intro W client d rem hname hscope hdesc hproto hcreate
    have hcreate' := hcreate
    simp only [serviceCreateCall] at hcreate'
    constructor
    · intro hstatus
      have hstatus' := hstatus
      simp only [serviceCreateCall] at hstatus'
      refine ⟨fmtErrorf "%s" [(serviceCreateCall client d rem).1.ResponseObject], ?_,
        fmtErrorf_percent_s _, ?_, ?_⟩
      · simp only [resourceServiceCreate, hname, hscope, hdesc, hproto, if_false,
          hcreate', hstatus', ne_eq, not_false_eq_true, if_true, serviceCreateCall]
      · simp only [resourceServiceCreate, hname, hscope, hdesc, hproto, if_false,
          hcreate', hstatus', ne_eq, not_false_eq_true, if_true]
      · simp only [resourceServiceCreate, hname, hscope, hdesc, hproto, if_false,
          hcreate', hstatus', ne_eq, not_false_eq_true, if_true]
        simp [doCall]
    · intro hstatus
      have hstatus' := hstatus
      simp only [serviceCreateCall] at hstatus'
      simp only [resourceServiceCreate, hname, hscope, hdesc, hproto, if_false,
        hcreate', hstatus', ne_eq, not_true_eq_false, serviceCreateCall]

theorem resourceSecurityGroupRead_found {W : Type} (client : NSXClient W)
    (d : SecurityGroupData) (rem : Remote W) (obj : SecurityGroup)
    (hscope : d.scopeid ≠ "") (hname : d.name ≠ "")
    (hfound : (getSingleSecurityGroup client d.scopeid d.name rem).1 = .ok obj)
    (hid : obj.ObjectID ≠ "")
    (hsets : ∀ definition, obj.DynamicMemberDefinition = some definition →
      definition.DynamicSet.length ≤ d.dynamic_membership.length) :
    resourceSecurityGroupRead client d rem
      = ⟨.ok, d, (getSingleSecurityGroup client d.scopeid d.name rem).2⟩ := by
  cases hdef : obj.DynamicMemberDefinition with
  | none =>
    simp only [resourceSecurityGroupRead, hscope, hname, if_false, desiredDefinition_eq, hfound,
      hid, hdef]
  | some definition =>
    obtain ⟨res, hres, -⟩ :=
      mergeDynamicSets_spec definition.DynamicSet 0 (d.dynamic_membership.map desiredDynamicSet)
        (by simpa using hsets definition hdef)
    simp only [resourceSecurityGroupRead, hscope, hname, if_false, desiredDefinition_eq, hfound,
      hid, hdef, hres, setDynamicMembership]

theorem resourceSecurityGroupRead_empty_id {W : Type} (client : NSXClient W)
    (d : SecurityGroupData) (rem : Remote W) (obj : SecurityGroup)
    (hscope : d.scopeid ≠ "") (hname : d.name ≠ "")
    (hfound : (getSingleSecurityGroup client d.scopeid d.name rem).1 = .ok obj)
    (hid : obj.ObjectID = "") :
    resourceSecurityGroupRead client d rem
      = ⟨.ok, { d with id := "" }, (getSingleSecurityGroup client d.scopeid d.name rem).2⟩ := by
  simp only [resourceSecurityGroupRead, hscope, hname, if_false, desiredDefinition_eq, hfound,
    hid, if_true]

theorem resourceSecurityPolicyRead_found {W : Type} (client : NSXClient W)
    (d : SecurityPolicyData) (rem : Remote W) (obj : SecurityPolicy)
    (hname : d.name ≠ "")
    (hfound : (getSingleSecurityPolicy client d.name rem).1 = .ok obj)
    (hid : obj.ObjectID ≠ "") :
    resourceSecurityPolicyRead client d rem
      = ⟨.ok, d, (getSingleSecurityPolicy client d.name rem).2⟩ := by
  simp only [resourceSecurityPolicyRead, hname, if_false, hfound, hid]

theorem resourceSecurityPolicyRead_empty_id {W : Type} (client : NSXClient W)
    (d : SecurityPolicyData) (rem : Remote W) (obj : SecurityPolicy)
    (hname : d.name ≠ "")
    (hfound : (getSingleSecurityPolicy client d.name rem).1 = .ok obj)
    (hid : obj.ObjectID = "") :
    resourceSecurityPolicyRead client d rem
      = ⟨.ok, { d with id := "" }, (getSingleSecurityPolicy client d.name rem).2⟩ := by
  simp only [resourceSecurityPolicyRead, hname, if_false, hfound, hid, if_true]

theorem getSingleService_ok_nonempty {W : Type} (client : NSXClient W) (scopeid name : String)
    (rem : Remote W) (obj : ApplicationService)
    (h : (getSingleService client scopeid name rem).1 = .ok obj) : obj.ObjectID ≠ "" := by
  simp only [getSingleService] at h
  split at h
  · simp at h
  · split at h
    · simp at h
    · split at h
      · simp at h
      · rename_i hid
        simp only [Except.ok.injEq] at h
        rw [← h]
        exact hid

theorem resourceServiceRead_found {W : Type} (client : NSXClient W)
    (d : ServiceData) (rem : Remote W) (obj : ApplicationService)
    (hscope : d.scopeid ≠ "") (hname : d.name ≠ "")
    (herr : (client (.serviceGetAll d.scopeid) rem.world).1.err = none)
    (hfound : (getSingleService client d.scopeid d.name
      (doCall client (.serviceGetAll d.scopeid) rem).2).1 = .ok obj) :
    resourceServiceRead client d rem
      = ⟨.ok, d, (getSingleService client d.scopeid d.name
          (doCall client (.serviceGetAll d.scopeid) rem).2).2⟩ := by
  have hid := getSingleService_ok_nonempty client d.scopeid d.name _ obj hfound
  have herr' : (doCall client (.serviceGetAll d.scopeid) rem).1.err = none := herr
  simp only [resourceServiceRead, hscope, hname, if_false, herr', hfound, hid]

/-- C11, counterexample: a remote system that answers the create call with status 201 and id
`created-1` but lists no group and no policy afterwards.  resourceSecurityGroupCreate and
resourceSecurityPolicyCreate return no error and leave the local id empty, not the returned
id: the Read that closes Create does not find the name and clears the id. -/
theorem create_leaves_id_empty_when_not_listed :
    (securityGroupCreateCall (staticClient [] [] []) { name := "web" } freshRemote).1.StatusCode
        = 201
      ∧ (securityGroupCreateCall (staticClient [] [] []) { name := "web" } freshRemote).1.CreatedID
        = "created-1"
      ∧ (resourceSecurityGroupCreate (staticClient [] [] []) { name := "web" } freshRemote).result
        = .ok
      ∧ (resourceSecurityGroupCreate (staticClient [] [] []) { name := "web" } freshRemote).d.id
        = ""
      ∧ (resourceSecurityGroupCreate (staticClient [] [] []) { name := "web" }
          freshRemote).rem.calls
        = [.securityGroupGetAll "globalroot-0", .securityGroupCreate "globalroot-0" "web" none,
           .securityGroupGetAll "globalroot-0"]
      ∧ (securityPolicyCreateCall (staticClient [] [] []) examplePolicyData ["securitygroup-7"]
          freshRemote).1.StatusCode = 201
      ∧ (resourceSecurityPolicyCreate (staticClient [] [] []) examplePolicyData
          freshRemote).result = .ok
      ∧ (resourceSecurityPolicyCreate (staticClient [] [] []) examplePolicyData
          freshRemote).d.id = "" := by
  refine ⟨by decide, by decide, by decide, by decide, by decide, by decide, by decide,
    by decide⟩

/-- C11, amended: in each Create, once the create call has been issued and has returned
without a transport error (for a security group: after a listing that holds no group of that
name).

* Status code other than 201: Create returns an error whose message is exactly the response
  body, leaves the resource data as it was (no id bound) and ends the trace with the create
  call (no Read, which would list).
* Status code 201: Create binds the returned id and runs Read on that state.  When the
  resolver of that Read returns an object with a non-empty ObjectID (for a group: with a
  membership definition, if any, of no more sets than the desired one), Create returns no
  error and leaves the returned id bound.  When it returns the empty record, which the group
  and policy resolvers do for a name that is not listed, Create returns no error and leaves
  the id empty. -/
theorem create_surfaces_remote_rejection :
    (∀ (W : Type) (client : NSXClient W) (d : SecurityGroupData) (rem : Remote W),
        d.scopeid ≠ "" → d.name ≠ "" →
        (client (.securityGroupGetAll d.scopeid) rem.world).1.err = none →
        (∀ x ∈ (client (.securityGroupGetAll d.scopeid) rem.world).1.SecurityGroups,
          x.Name ≠ d.name) →
        (securityGroupCreateCall client d rem).1.err = none →
        ((securityGroupCreateCall client d rem).1.StatusCode ≠ 201 →
          ∃ e, (resourceSecurityGroupCreate client d rem).result = .error e
            ∧ e.Error = some (securityGroupCreateCall client d rem).1.ResponseObject
            ∧ (resourceSecurityGroupCreate client d rem).d = d
            ∧ (resourceSecurityGroupCreate client d rem).rem.calls
                = rem.calls ++ [.securityGroupGetAll d.scopeid,
                    .securityGroupCreate d.scopeid d.name (securityGroupCreateDefinition d)])
        ∧ ((securityGroupCreateCall client d rem).1.StatusCode = 201 →
          ∀ obj : SecurityGroup,
            (getSingleSecurityGroup client d.scopeid d.name
              (securityGroupCreateCall client d rem).2).1 = .ok obj →
            (obj.ObjectID ≠ "" →
              (∀ definition, obj.DynamicMemberDefinition = some definition →
                definition.DynamicSet.length ≤ d.dynamic_membership.length) →
              (resourceSecurityGroupCreate client d rem).result = .ok
                ∧ (resourceSecurityGroupCreate client d rem).d
                    = { d with id := (securityGroupCreateCall client d rem).1.CreatedID })
            ∧ (obj.ObjectID = "" →
              (resourceSecurityGroupCreate client d rem).result = .ok
                ∧ (resourceSecurityGroupCreate client d rem).d = { d with id := "" })))
      ∧ (∀ (W : Type) (client : NSXClient W) (d : SecurityPolicyData) (rem : Remote W)
          (securitygroups : List String),
        d.name ≠ "" → d.precedence ≠ "" → d.description ≠ "" → d.securitygroups ≠ [] →
        collectSecurityGroups d.securitygroups = .ok securitygroups →
        (securityPolicyCreateCall client d securitygroups rem).1.err = none →
        ((securityPolicyCreateCall client d securitygroups rem).1.StatusCode ≠ 201 →
          ∃ e, (resourceSecurityPolicyCreate client d rem).result = .error e
            ∧ e.Error = some (securityPolicyCreateCall client d securitygroups rem).1.ResponseObject
            ∧ (resourceSecurityPolicyCreate client d rem).d = d
            ∧ (resourceSecurityPolicyCreate client d rem).rem.calls
                = rem.calls
                  ++ [.securityPolicyCreate d.name d.precedence d.description securitygroups []])
        ∧ ((securityPolicyCreateCall client d securitygroups rem).1.StatusCode = 201 →
          ∀ obj : SecurityPolicy,
            (getSingleSecurityPolicy client d.name
              (securityPolicyCreateCall client d securitygroups rem).2).1 = .ok obj →
            (obj.ObjectID ≠ "" →
              (resourceSecurityPolicyCreate client d rem).result = .ok
                ∧ (resourceSecurityPolicyCreate client d rem).d
                    = { d with
                        id := (securityPolicyCreateCall client d securitygroups rem).1.CreatedID })
            ∧ (obj.ObjectID = "" →
              (resourceSecurityPolicyCreate client d rem).result = .ok
                ∧ (resourceSecurityPolicyCreate client d rem).d = { d with id := "" })))
      ∧ (∀ (W : Type) (client : NSXClient W) (d : ServiceData) (rem : Remote W),
        d.name ≠ "" → d.scopeid ≠ "" → d.description ≠ "" → d.protocol ≠ "" →
        (serviceCreateCall client d rem).1.err = none →
        ((serviceCreateCall client d rem).1.StatusCode ≠ 201 →
          ∃ e, (resourceServiceCreate client d rem).result = .error e
            ∧ e.Error = some (serviceCreateCall client d rem).1.ResponseObject
            ∧ (resourceServiceCreate client d rem).d = d
            ∧ (resourceServiceCreate client d rem).rem.calls
                = rem.calls
                  ++ [.serviceCreate d.scopeid d.name d.description d.protocol d.ports])
        ∧ ((serviceCreateCall client d rem).1.StatusCode = 201 →
          ∀ obj : ApplicationService,
            (client (.serviceGetAll d.scopeid) (serviceCreateCall client d rem).2.world).1.err
              = none →
            (getSingleService client d.scopeid d.name
              (doCall client (.serviceGetAll d.scopeid) (serviceCreateCall client d rem).2).2).1
              = .ok obj →
            (resourceServiceCreate client d rem).result = .ok
              ∧ (resourceServiceCreate client d rem).d
                  = { d with id := (serviceCreateCall client d rem).1.CreatedID })) := by
  refine ⟨?_, ?_, ?_⟩
  · intro W client d rem hscope hname herr hnone hcreate
    obtain ⟨hrej, hacc⟩ := create_call_outcome.1 W client d rem hscope hname herr hnone hcreate
    refine ⟨hrej, ?_⟩
    intro hstatus obj hfound
    rw [hacc hstatus]
    constructor
    · intro hid hsets
      rw [resourceSecurityGroupRead_found client
        { d with id := (securityGroupCreateCall client d rem).1.CreatedID }
        (securityGroupCreateCall client d rem).2 obj hscope hname hfound hid hsets]
      exact ⟨rfl, rfl⟩
    · intro hid
      rw [resourceSecurityGroupRead_empty_id client
        { d with id := (securityGroupCreateCall client d rem).1.CreatedID }
        (securityGroupCreateCall client d rem).2 obj hscope hname hfound hid]
      exact ⟨rfl, rfl⟩
  · intro W client d rem ids hname hprec hdesc hgroups hcollect hcreate
    obtain ⟨hrej, hacc⟩ :=
      create_call_outcome.2.1 W client d rem ids hname hprec hdesc hgroups hcollect hcreate
    refine ⟨hrej, ?_⟩
    intro hstatus obj hfound
    rw [hacc hstatus]
    constructor
    · intro hid
      rw [resourceSecurityPolicyRead_found client
        { d with id := (securityPolicyCreateCall client d ids rem).1.CreatedID }
        (securityPolicyCreateCall client d ids rem).2 obj hname hfound hid]
      exact ⟨rfl, rfl⟩
    · intro hid
      rw [resourceSecurityPolicyRead_empty_id client
        { d with id := (securityPolicyCreateCall client d ids rem).1.CreatedID }
        (securityPolicyCreateCall client d ids rem).2 obj hname hfound hid]
      exact ⟨rfl, rfl⟩
  · intro W client d rem hname hscope hdesc hproto hcreate
    obtain ⟨hrej, hacc⟩ :=
      create_call_outcome.2.2 W client d rem hname hscope hdesc hproto hcreate
    refine ⟨hrej, ?_⟩
    intro hstatus obj herr hfound
    rw [hacc hstatus, resourceServiceRead_found client
      { d with id := (serviceCreateCall client d rem).1.CreatedID }
      (serviceCreateCall client d rem).2 obj hscope hname herr hfound]
    exact ⟨rfl, rfl⟩

/-- C11, amended, at concrete inputs: a remote system that answers every create call with
status 400 and body `quota exceeded`, for a group, a policy and a service; and remote systems
that answer 201 with id `created-1` and list the new group, policy or service afterwards. -/
theorem create_surfaces_remote_rejection_witness :
    (∃ e, (resourceSecurityGroupCreate (rejectingClient "quota exceeded")
          { name := "web" } freshRemote).result = .error e
        ∧ e.Error = some "quota exceeded"
        ∧ (resourceSecurityGroupCreate (rejectingClient "quota exceeded")
          { name := "web" } freshRemote).d = { name := "web" }
        ∧ (resourceSecurityGroupCreate (rejectingClient "quota exceeded")
          { name := "web" } freshRemote).rem.calls
            = [.securityGroupGetAll "globalroot-0",
               .securityGroupCreate "globalroot-0" "web" none])
      ∧ (∃ e, (resourceSecurityPolicyCreate (rejectingClient "quota exceeded")
          examplePolicyData freshRemote).result = .error e
        ∧ e.Error = some "quota exceeded"
        ∧ (resourceSecurityPolicyCreate (rejectingClient "quota exceeded")
          examplePolicyData freshRemote).d = examplePolicyData
        ∧ (resourceSecurityPolicyCreate (rejectingClient "quota exceeded")
          examplePolicyData freshRemote).rem.calls
            = [.securityPolicyCreate "p1" "5000" "web policy" ["securitygroup-7"] []])
      ∧ (∃ e, (resourceServiceCreate (rejectingClient "quota exceeded")
          exampleServiceData freshRemote).result = .error e
        ∧ e.Error = some "quota exceeded"
        ∧ (resourceServiceCreate (rejectingClient "quota exceeded")
          exampleServiceData freshRemote).d = exampleServiceData
        ∧ (resourceServiceCreate (rejectingClient "quota exceeded")
          exampleServiceData freshRemote).rem.calls
            = [.serviceCreate "globalroot-0" "http" "web traffic" "TCP" "80"])
      ∧ ((resourceSecurityPolicyCreate (staticClient [] [{ ObjectID := "policy-1", Name := "p1" }] [])
          examplePolicyData freshRemote).result = .ok
        ∧ (resourceSecurityPolicyCreate
          (staticClient [] [{ ObjectID := "policy-1", Name := "p1" }] [])
          examplePolicyData freshRemote).d = { examplePolicyData with id := "created-1" })
      ∧ ((resourceServiceCreate (staticClient [] [] [exampleRemoteService])
          exampleServiceData freshRemote).result = .ok
        ∧ (resourceServiceCreate (staticClient [] [] [exampleRemoteService])
          exampleServiceData freshRemote).d = { exampleServiceData with id := "created-1" }) :=
  ⟨(create_surfaces_remote_rejection.1 Unit (rejectingClient "quota exceeded")
      { name := "web" } freshRemote (by decide) (by decide) rfl (by decide) rfl).1 (by decide),
   (create_surfaces_remote_rejection.2.1 Unit (rejectingClient "quota exceeded")
      examplePolicyData freshRemote ["securitygroup-7"] (by decide) (by decide) (by decide)
      (by decide) rfl rfl).1 (by decide),
   (create_surfaces_remote_rejection.2.2 Unit (rejectingClient "quota exceeded")
      exampleServiceData freshRemote (by decide) (by decide) (by decide) (by decide) rfl).1
      (by decide),
   ((create_surfaces_remote_rejection.2.1 Unit
      (staticClient [] [{ ObjectID := "policy-1", Name := "p1" }] [])
      examplePolicyData freshRemote ["securitygroup-7"] (by decide) (by decide) (by decide)
      (by decide) rfl rfl).2 rfl { ObjectID := "policy-1", Name := "p1" } rfl).1 (by decide),
   (create_surfaces_remote_rejection.2.2 Unit (staticClient [] [] [exampleRemoteService])
      exampleServiceData freshRemote (by decide) (by decide) (by decide) (by decide) rfl).2
      rfl exampleRemoteService rfl rfl⟩

/-! ### C12 -/

theorem serviceApplyChanges_changed (d : ServiceData) (obj : ApplicationService)
    (h : d.nameOld ≠ d.name ∨ d.descriptionOld ≠ d.description ∨ d.protocolOld ≠ d.protocol
      ∨ d.portsOld ≠ d.ports) :
    (serviceApplyChanges d obj).1 = true := by
  unfold serviceApplyChanges
  by_cases h3 : d.protocolOld ≠ d.protocol ∨ d.portsOld ≠ d.ports
  · simp only [if_pos h3]
  · by_cases h2 : d.descriptionOld ≠ d.description
    · simp only [if_neg h3, if_pos h2]
    · have h1 : d.nameOld ≠ d.name := by
        rcases h with h | h | h | h
        · exact h
        · exact absurd h h2
        · exact absurd (Or.inl h) h3
        · exact absurd (Or.inr h) h3
      simp only [if_neg h3, if_neg h2, if_pos h1]

/-- C12 (observe over fail in Update), evaluated on the code against a remote system whose
update calls fail in transport with `connection reset`.

* The service `http` exists remotely and its description has changed: resourceServiceUpdate
  returns that error and its trace ends with the update call (two listings, then the update).
  No Read follows, although Read from that point would have returned no error.
* The group `web`, renamed to `web2`: resourceSecurityGroupUpdate, the sibling, swallows the
  same failure; a listing follows the update call and the result is the one of Read. -/
theorem resourceServiceUpdate_returns_update_error :
    (resourceServiceUpdate (failingUpdateClient [] [exampleRemoteService] "connection reset")
        exampleServiceChanged freshRemote).result = .error (.message "connection reset")
      ∧ (resourceServiceUpdate (failingUpdateClient [] [exampleRemoteService] "connection reset")
        exampleServiceChanged freshRemote).rem.calls
          = [.serviceGetAll "globalroot-0", .serviceGetAll "globalroot-0",
             .serviceUpdate "application-3"
               { exampleRemoteService with Description := "all web traffic" }]
      ∧ (resourceServiceRead (failingUpdateClient [] [exampleRemoteService] "connection reset")
        exampleServiceChanged
        (resourceServiceUpdate (failingUpdateClient [] [exampleRemoteService] "connection reset")
          exampleServiceChanged freshRemote).rem).result = .ok
      ∧ (resourceSecurityGroupUpdate
        (failingUpdateClient [exampleRemoteGroup] [] "connection reset")
        exampleGroupRenamed freshRemote).result = .ok
      ∧ (resourceSecurityGroupUpdate
        (failingUpdateClient [exampleRemoteGroup] [] "connection reset")
        exampleGroupRenamed freshRemote).rem.calls
          = [.securityGroupGetAll "globalroot-0",
             .securityGroupUpdate "securitygroup-7"
               { ObjectID := "securitygroup-7", Name := "web2",
                 DynamicMemberDefinition :=
                   some ⟨[{ Operator := "AND", DynamicCriteria := exampleDesiredCriteria }]⟩ },
             .securityGroupGetAll "globalroot-0"] := by
  refine ⟨by decide, by decide, by decide, by decide, by decide⟩

/-- The two Updates on a failed update call, in general.  When Update has a change to send (for
a group: a new name, or a membership block in the old or the new state; for a service: a
changed name, description, protocol or ports) and its update call fails with a transport
error, resourceSecurityGroupUpdate has the outcome of Read run after the update call, and
resourceServiceUpdate returns the update call's error, leaves the resource data as it was and
ends with the update call. -/
theorem update_call_failure_handling :
    (∀ (W : Type) (client : NSXClient W) (d : SecurityGroupData) (rem : Remote W)
        (obj : SecurityGroup) (e : String),
        d.scopeid ≠ "" →
        (getSingleSecurityGroup client d.scopeid d.nameOld rem).1 = .ok obj →
        (d.nameOld ≠ d.name ∨ hasChangeDynamicMembership d = true) →
        (securityGroupUpdateCall client d obj rem).1.err = some e →
        resourceSecurityGroupUpdate client d rem
          = resourceSecurityGroupRead client d (securityGroupUpdateCall client d obj rem).2)
      ∧ (∀ (W : Type) (client : NSXClient W) (d : ServiceData) (rem : Remote W)
        (obj : ApplicationService) (e : String),
        d.scopeid ≠ "" →
        (client (.serviceGetAll d.scopeid) rem.world).1.err = none →
        (getSingleService client d.scopeid d.nameOld
          (doCall client (.serviceGetAll d.scopeid) rem).2).1 = .ok obj →
        (d.nameOld ≠ d.name ∨ d.descriptionOld ≠ d.description ∨ d.protocolOld ≠ d.protocol
          ∨ d.portsOld ≠ d.ports) →
        (serviceUpdateCall client d obj rem).1.err = some e →
        resourceServiceUpdate client d rem
          = ⟨.error (.message e), d, (serviceUpdateCall client d obj rem).2⟩) := by
  constructor
  · intro W client d rem obj e hscope hres hchanged _
    by_cases hdm : hasChangeDynamicMembership d = true
    · simp only [resourceSecurityGroupUpdate, hscope, if_false, hres, if_pos hdm,
        securityGroupCreateDefinition_eq, securityGroupUpdateFinish, securityGroupUpdateCall,
        securityGroupUpdateObject, if_true]
    · have hname : d.nameOld ≠ d.name := by
        rcases hchanged with h | h
        · exact h
        · exact absurd h hdm
      simp only [resourceSecurityGroupUpdate, hscope, if_false, hres, if_neg hdm, if_pos hname,
        securityGroupUpdateFinish, securityGroupUpdateCall, securityGroupUpdateObject, if_true]
  · intro W client d rem obj e hscope herr hres hchanged hfail
    have hid := getSingleService_ok_nonempty client d.scopeid d.nameOld _ obj hres
    have hc := serviceApplyChanges_changed d obj hchanged
    have hfail' := hfail
    simp only [serviceUpdateCall] at hfail'
    simp only [resourceServiceUpdate, hscope, if_false, doCall, herr, hres, hid, hc, if_true,
      serviceUpdateCall]
    simp only [doCall] at hfail' hres
    simp only [hres, hid, if_false, hc, if_true, hfail']

/-- The general form at concrete inputs: the group `web` renamed to `web2` and the service
`http` with a new description, against a remote system whose update calls fail with
`connection reset`. -/
theorem update_call_failure_handling_witness :
    resourceSecurityGroupUpdate (failingUpdateClient [exampleRemoteGroup] [] "connection reset")
        exampleGroupRenamed freshRemote
      = resourceSecurityGroupRead (failingUpdateClient [exampleRemoteGroup] [] "connection reset")
          exampleGroupRenamed
          (securityGroupUpdateCall
            (failingUpdateClient [exampleRemoteGroup] [] "connection reset")
            exampleGroupRenamed exampleRemoteGroup freshRemote).2
      ∧ resourceServiceUpdate (failingUpdateClient [] [exampleRemoteService] "connection reset")
          exampleServiceChanged freshRemote
        = ⟨.error (.message "connection reset"), exampleServiceChanged,
            (serviceUpdateCall (failingUpdateClient [] [exampleRemoteService] "connection reset")
              exampleServiceChanged exampleRemoteService freshRemote).2⟩ :=
  ⟨update_call_failure_handling.1 Unit
      (failingUpdateClient [exampleRemoteGroup] [] "connection reset")
      exampleGroupRenamed freshRemote exampleRemoteGroup "connection reset"
      (by decide) rfl (Or.inl (by decide)) rfl,
   update_call_failure_handling.2 Unit
      (failingUpdateClient [] [exampleRemoteService] "connection reset")
      exampleServiceChanged freshRemote exampleRemoteService "connection reset"
      (by decide) rfl rfl (Or.inr (Or.inl (by decide))) rfl⟩

/-! ### C13 -/

theorem mergeDynamicSets_out_of_range (remote : List DynamicSet) :
    ∀ (idx : Nat) (sets : List DynamicSet), idx ≤ sets.length →
      sets.length < idx + remote.length → mergeDynamicSets idx remote sets = none := by
  induction remote with
  | nil =>
    intro idx sets h1 h2
    simp only [List.length_nil, Nat.add_zero] at h2
    omega
  | cons r0 rest ih =>
    intro idx sets h1 h2
    simp only [List.length_cons] at h2
    by_cases hidx : idx < sets.length
    · simp only [mergeDynamicSets, List.getElem?_eq_getElem hidx]
      apply ih
      · simp only [List.length_set]; omega
      · simp only [List.length_set]; omega
    · have hnone : sets[idx]? = none := List.getElem?_eq_none_iff.mpr (by omega)
      simp only [mergeDynamicSets, hnone]

/-- C13: when Read finds the group with a membership definition, the merge loop indexes the
desired sets (one per `dynamic_membership` block) by the position of each remote set.  If the
remote definition has at most as many sets as the desired one, no index is out of range and
Read returns no error; if it has more, the desired slice has no element at the first excess
position (its length) and Read ends in the index-out-of-range panic. -/
theorem resourceSecurityGroupRead_merge_bounds {W : Type} (client : NSXClient W)
    (d : SecurityGroupData) (rem : Remote W) (obj : SecurityGroup)
    (remoteDef : DynamicMemberDefinition)
    (hscope : d.scopeid ≠ "") (hname : d.name ≠ "")
    (hfound : (getSingleSecurityGroup client d.scopeid d.name rem).1 = .ok obj)
    (hid : obj.ObjectID ≠ "") (hdef : obj.DynamicMemberDefinition = some remoteDef) :
    (remoteDef.DynamicSet.length ≤ d.dynamic_membership.length →
        (∃ merged, mergeDynamicSets 0 remoteDef.DynamicSet
            (d.dynamic_membership.map desiredDynamicSet) = some merged)
          ∧ (resourceSecurityGroupRead client d rem).result = .ok)
      ∧ (d.dynamic_membership.length < remoteDef.DynamicSet.length →
        (d.dynamic_membership.map desiredDynamicSet)[d.dynamic_membership.length]? = none
          ∧ mergeDynamicSets 0 remoteDef.DynamicSet
              (d.dynamic_membership.map desiredDynamicSet) = none
          ∧ (resourceSecurityGroupRead client d rem).result = .panic indexOutOfRange) := by
  constructor
  · intro hlen
    obtain ⟨res, hres, -⟩ :=
      mergeDynamicSets_spec remoteDef.DynamicSet 0 (d.dynamic_membership.map desiredDynamicSet)
        (by simpa using hlen)
    refine ⟨⟨res, hres⟩, ?_⟩
    simp only [resourceSecurityGroupRead, hscope, hname, if_false, desiredDefinition_eq, hfound,
      hid, hdef, hres]
  · intro hlen
    have hnone := mergeDynamicSets_out_of_range remoteDef.DynamicSet 0
      (d.dynamic_membership.map desiredDynamicSet) (Nat.zero_le _) (by simpa using hlen)
    refine ⟨?_, hnone, ?_⟩
    · exact List.getElem?_eq_none_iff.mpr (by simp)
    · simp only [resourceSecurityGroupRead, hscope, hname, if_false, desiredDefinition_eq, hfound,
        hid, hdef, hnone]

/-- C13 at concrete inputs: the example group (one desired block, one remote set) is read
without error; the same remote group read with no desired `dynamic_membership` ends in the
index-out-of-range panic. -/
theorem resourceSecurityGroupRead_merge_bounds_witness :
    (resourceSecurityGroupRead (staticClient [exampleRemoteGroup] [] []) exampleGroupData
        freshRemote).result = .ok
      ∧ (resourceSecurityGroupRead (staticClient [exampleRemoteGroup] [] []) exampleBareGroupData
        freshRemote).result = .panic indexOutOfRange :=
  ⟨((resourceSecurityGroupRead_merge_bounds (staticClient [exampleRemoteGroup] [] [])
      exampleGroupData freshRemote exampleRemoteGroup
      ⟨[{ Operator := "OR", DynamicCriteria := exampleRemoteCriteria }]⟩
      (by decide) (by decide) rfl (by decide) rfl).1 (by decide)).2,
   ((resourceSecurityGroupRead_merge_bounds (staticClient [exampleRemoteGroup] [] [])
      exampleBareGroupData freshRemote exampleRemoteGroup
      ⟨[{ Operator := "OR", DynamicCriteria := exampleRemoteCriteria }]⟩
      (by decide) (by decide) rfl (by decide) rfl).2 (by decide)).2.2⟩

end NSX
